import Mathlib

/-!
Verification of the flight-dynamics core (`flightDynamics.ts`) of the
flight-simulator repository.

The TypeScript source is shallowly embedded: JavaScript numbers are modelled
as real numbers (`ℝ`), `Math.hypot`/`Math.sqrt` as `Real.sqrt` of the sum of
squares, `Math.atan2` as the standard two-argument arctangent on `ℝ`,
trigonometric functions as their Mathlib counterparts.  Non-finite doubles
(`NaN`, `±Infinity`) only influence the code through the `Number.isFinite`
guard of `FlightDynamicsModel.update`, so the `dt` argument is embedded as a
sum type `JsNum` carrying either a real value or one of the non-finite tags.

The `while (remaining > 1e-6)` substep loop of `update` is embedded with an
explicit fuel parameter; `updateLoop_fuel_stable` shows that the fuel `13`
used by `update` is enough for every `remaining ≤ 0.25`, so the embedding
computes the loop's exact fixpoint semantics.
-/

set_option maxHeartbeats 1600000

namespace FlightSim

noncomputable section

/-- `Vector3` from the source: a free 3-vector with real components. -/
@[ext] structure Vector3 where
  x : ℝ
  y : ℝ
  z : ℝ

/-- `Quaternion` from the source, stored as `{x, y, z, w}`. -/
@[ext] structure Quaternion where
  x : ℝ
  y : ℝ
  z : ℝ
  w : ℝ

/-- `AircraftParameters` from the source. -/
structure AircraftParameters where
  massKg : ℝ
  wingAreaM2 : ℝ
  wingSpanM : ℝ
  maxThrustN : ℝ
  parasiteDragCoefficient : ℝ
  clSlopePerRad : ℝ
  oswaldEfficiency : ℝ

/-- `ControlInputs` from the source. -/
structure ControlInputs where
  elevator : ℝ
  ailerons : ℝ
  rudder : ℝ
  throttle : ℝ

/-- The body angular-rate record `{p, q, r}` stored on the aircraft state. -/
@[ext] structure AngularRates where
  p : ℝ
  q : ℝ
  r : ℝ

/-- `AircraftState` from the source. -/
@[ext] structure AircraftState where
  positionEnuMeters : Vector3
  velocityEnuMetersPerSec : Vector3
  yawRad : ℝ
  pitchRad : ℝ
  rollRad : ℝ
  orientation : Quaternion
  angularRatesRadPerSec : AngularRates

/-- `FdmConfig` from the source. -/
structure FdmConfig where
  maxRollRateRadPerSec : ℝ
  maxPitchRateRadPerSec : ℝ
  maxYawRateRadPerSec : ℝ
  rollRateGain : ℝ
  pitchRateGain : ℝ
  yawRateGain : ℝ
  stallAlphaRad : ℝ
  coordinationGain : ℝ
  lateralDragCoefficient : ℝ

/-- `GRAVITY_M_S2 = 9.80665` from the source. -/
def GRAVITY_M_S2 : ℝ := 9.80665

/-- `AIR_DENSITY_KG_M3 = 1.225` (ISA sea level) from the source. -/
def AIR_DENSITY_KG_M3 : ℝ := 1.225

/-- `DefaultFdmConfig` from the source. -/
def DefaultFdmConfig : FdmConfig where
  maxRollRateRadPerSec := Real.pi
  maxPitchRateRadPerSec := Real.pi / 2
  maxYawRateRadPerSec := Real.pi / 2
  rollRateGain := 0.6
  pitchRateGain := 0.5
  yawRateGain := 0.4
  stallAlphaRad := 15 * (Real.pi / 180)
  coordinationGain := 0.7
  lateralDragCoefficient := 0.6

/-- `clamp(value, min, max) = Math.max(min, Math.min(max, value))`. -/
def clamp (value lo hi : ℝ) : ℝ := max lo (min hi value)

/-- Vector addition `add` from the source. -/
def add (a b : Vector3) : Vector3 := ⟨a.x + b.x, a.y + b.y, a.z + b.z⟩

/-- Scalar multiple `scale` from the source. -/
def scale (v : Vector3) (s : ℝ) : Vector3 := ⟨v.x * s, v.y * s, v.z * s⟩

/-- Dot product `dot` from the source. -/
def dot (a b : Vector3) : ℝ := a.x * b.x + a.y * b.y + a.z * b.z

/-- `Math.hypot` on two arguments: the exact Euclidean norm over `ℝ`. -/
def hypot2 (x y : ℝ) : ℝ := Real.sqrt (x ^ 2 + y ^ 2)

/-- `Math.hypot` on three arguments. -/
def hypot3 (x y z : ℝ) : ℝ := Real.sqrt (x ^ 2 + y ^ 2 + z ^ 2)

/-- `Math.hypot` on four arguments. -/
def hypot4 (x y z w : ℝ) : ℝ := Real.sqrt (x ^ 2 + y ^ 2 + z ^ 2 + w ^ 2)

/-- `magnitude(v) = Math.hypot(v.x, v.y, v.z)` from the source. -/
def magnitude (v : Vector3) : ℝ := hypot3 v.x v.y v.z

/-- `normalize` from the source: `m > 1e-6 ? scale(v, 1/m) : zero`. -/
def normalize (v : Vector3) : Vector3 :=
  if magnitude v > 1e-6 then scale v (1 / magnitude v) else ⟨0, 0, 0⟩

/-- Cross product `cross` from the source. -/
def cross (a b : Vector3) : Vector3 :=
  ⟨a.y * b.z - a.z * b.y, a.z * b.x - a.x * b.z, a.x * b.y - a.y * b.x⟩

/-- A 3×3 matrix stored row-major, mirroring the 9-element `number[]`
returned by the source's matrix helpers. -/
@[ext] structure Mat3 where
  m00 : ℝ
  m01 : ℝ
  m02 : ℝ
  m10 : ℝ
  m11 : ℝ
  m12 : ℝ
  m20 : ℝ
  m21 : ℝ
  m22 : ℝ

/-- `multiplyMatrixVector3` from the source. -/
def multiplyMatrixVector3 (r : Mat3) (v : Vector3) : Vector3 :=
  ⟨r.m00 * v.x + r.m01 * v.y + r.m02 * v.z,
   r.m10 * v.x + r.m11 * v.y + r.m12 * v.z,
   r.m20 * v.x + r.m21 * v.y + r.m22 * v.z⟩

/-- `transpose3` from the source. -/
def transpose3 (r : Mat3) : Mat3 :=
  ⟨r.m00, r.m10, r.m20, r.m01, r.m11, r.m21, r.m02, r.m12, r.m22⟩

/-- `quaternionMultiply` from the source (Hamilton product in `{x,y,z,w}`
component layout). -/
def quaternionMultiply (a b : Quaternion) : Quaternion :=
  ⟨a.w * b.x + a.x * b.w + a.y * b.z - a.z * b.y,
   a.w * b.y - a.x * b.z + a.y * b.w + a.z * b.x,
   a.w * b.z + a.x * b.y - a.y * b.x + a.z * b.w,
   a.w * b.w - a.x * b.x - a.y * b.y - a.z * b.z⟩

/-- `quaternionNormalize` from the source: returns the identity quaternion on
zero input, otherwise divides by the magnitude. -/
def quaternionNormalize (q : Quaternion) : Quaternion :=
  let m := hypot4 q.x q.y q.z q.w
  if m = 0 then ⟨0, 0, 0, 1⟩
  else ⟨q.x * (1 / m), q.y * (1 / m), q.z * (1 / m), q.w * (1 / m)⟩

/-- `integrateOrientation` from the source: explicit Euler step
`q + 0.5*dt*(q ⊗ [p,q,r,0])` followed by renormalization. -/
def integrateOrientation (q : Quaternion) (p qRate r dt : ℝ) :
    Quaternion :=
  let omega : Quaternion := ⟨p, qRate, r, 0⟩
  let dq := quaternionMultiply q omega
  quaternionNormalize
    ⟨q.x + 0.5 * dq.x * dt, q.y + 0.5 * dq.y * dt,
     q.z + 0.5 * dq.z * dt, q.w + 0.5 * dq.w * dt⟩

/-- `matrixFromQuaternion` from the source. -/
def matrixFromQuaternion (q : Quaternion) : Mat3 :=
  ⟨1 - 2 * (q.y * q.y + q.z * q.z), 2 * (q.x * q.y - q.w * q.z),
     2 * (q.x * q.z + q.w * q.y),
   2 * (q.x * q.y + q.w * q.z), 1 - 2 * (q.x * q.x + q.z * q.z),
     2 * (q.y * q.z - q.w * q.x),
   2 * (q.x * q.z - q.w * q.y), 2 * (q.y * q.z + q.w * q.x),
     1 - 2 * (q.x * q.x + q.y * q.y)⟩

/-- `quaternionFromYawPitchRoll` from the source (ZYX convention). -/
def quaternionFromYawPitchRoll (yaw pitch roll : ℝ) : Quaternion :=
  let cy := Real.cos (yaw * 0.5)
  let sy := Real.sin (yaw * 0.5)
  let cp := Real.cos (pitch * 0.5)
  let sp := Real.sin (pitch * 0.5)
  let cr := Real.cos (roll * 0.5)
  let sr := Real.sin (roll * 0.5)
  ⟨sr * cp * cy - cr * sp * sy,
   cr * sp * cy + sr * cp * sy,
   cr * cp * sy - sr * sp * cy,
   cr * cp * cy + sr * sp * sy⟩

/-- `Math.atan2` over the reals (branch structure of the IEEE definition,
signed zeroes excepted, which do not exist in `ℝ`). -/
def atan2 (y x : ℝ) : ℝ :=
  if 0 < x then Real.arctan (y / x)
  else if x < 0 then
    (if 0 ≤ y then Real.arctan (y / x) + Real.pi
     else Real.arctan (y / x) - Real.pi)
  else if 0 < y then Real.pi / 2
  else if y < 0 then -(Real.pi / 2)
  else 0

/-- The record returned by `yawPitchRollFromQuaternion`. -/
structure YawPitchRoll where
  yaw : ℝ
  pitch : ℝ
  roll : ℝ

/-- `yawPitchRollFromQuaternion` from the source (standard ZYX extraction). -/
def yawPitchRollFromQuaternion (q : Quaternion) : YawPitchRoll :=
  let r := matrixFromQuaternion q
  ⟨atan2 r.m10 r.m00, Real.arcsin (-r.m20), atan2 r.m21 r.m22⟩

/-- `calculateLiftCoefficient` from the source. -/
def calculateLiftCoefficient (alphaRad clSlopePerRad stallAlphaRad : ℝ) : ℝ :=
  clSlopePerRad * clamp alphaRad (-stallAlphaRad) stallAlphaRad

/-- `calculateDragCoefficient` from the source. -/
def calculateDragCoefficient
    (cd0 cl aspectRatio oswaldEfficiency : ℝ) : ℝ :=
  cd0 + 1 / (Real.pi * aspectRatio * oswaldEfficiency) * cl * cl

/-- `calculateLiftNewtons` from the source. -/
def calculateLiftNewtons (cl airDensityKgM3 speedMS wingAreaM2 : ℝ) : ℝ :=
  0.5 * cl * airDensityKgM3 * speedMS * speedMS * wingAreaM2

/-- `calculateDragNewtons` from the source. -/
def calculateDragNewtons (cd airDensityKgM3 speedMS wingAreaM2 : ℝ) : ℝ :=
  0.5 * cd * airDensityKgM3 * speedMS * speedMS * wingAreaM2

/-- The parameter record built by `createDefaultAircraft`. -/
def defaultAircraftParameters : AircraftParameters where
  massKg := 1110
  wingAreaM2 := 16.2
  wingSpanM := 11.0
  maxThrustN := 4500
  parasiteDragCoefficient := 0.03
  clSlopePerRad := 5.7
  oswaldEfficiency := 0.8

/-- The state record built by `createDefaultAircraft`. -/
def defaultAircraftState : AircraftState where
  positionEnuMeters := ⟨0, 0, 0⟩
  velocityEnuMetersPerSec := ⟨0, 0, 0⟩
  yawRad := 0
  pitchRad := 0
  rollRad := 0
  orientation := ⟨0, 0, 0, 1⟩
  angularRatesRadPerSec := ⟨0, 0, 0⟩

/-- `createDefaultAircraft` from the source. -/
def createDefaultAircraft : AircraftParameters × AircraftState :=
  (defaultAircraftParameters, defaultAircraftState)

/-- A JavaScript `number` as observed by `update`'s guard: either a finite
real value or one of the non-finite tags. -/
inductive JsNum where
  | num (val : ℝ)
  | nan
  | posInf
  | negInf

/-- `Number.isFinite`. -/
def jsIsFinite : JsNum → Bool
  | .num _ => true
  | _ => false

/-- The real value carried by a finite `JsNum` (defaulting to `0` on the
non-finite tags, which `update` never reads past its guard). -/
def jsVal : JsNum → ℝ
  | .num x => x
  | _ => 0

/-- `vAeroBody` (source line 530): for aerodynamics, negative forward body
speed is treated as zero. -/
def vAeroBodyOf (vBody : Vector3) : Vector3 := ⟨max 0 vBody.x, vBody.y, vBody.z⟩

/-- `speedAero` (source line 531). -/
def speedAeroOf (vBody : Vector3) : ℝ := magnitude (vAeroBodyOf vBody)

/-- `alpha` (source lines 534-535): angle of attack, zero below 0.1 m/s of
aero speed, with the `effectiveU = max(1e-3, vAeroBody.x)` epsilon floor. -/
def alphaOf (vBody : Vector3) : ℝ :=
  if speedAeroOf vBody < 0.1 then 0
  else atan2 (vAeroBodyOf vBody).z (max 1e-3 (vAeroBodyOf vBody).x)

/-- `beta` (source line 536): sideslip angle, zero below 0.1 m/s. -/
def betaOf (vBody : Vector3) : ℝ :=
  if speedAeroOf vBody < 0.1 then 0
  else atan2 (vAeroBodyOf vBody).y
    (hypot2 (max 1e-6 (vAeroBodyOf vBody).x) (vAeroBodyOf vBody).z)

/-- `aspectRatio` (source line 537). -/
def aspectRatioOf (params : AircraftParameters) : ℝ :=
  params.wingSpanM * params.wingSpanM / params.wingAreaM2

/-- `cl` (source line 538). -/
def clOf (params : AircraftParameters) (config : FdmConfig)
    (vBody : Vector3) : ℝ :=
  calculateLiftCoefficient (alphaOf vBody) params.clSlopePerRad
    config.stallAlphaRad

/-- `cd` (source line 539). -/
def cdOf (params : AircraftParameters) (config : FdmConfig)
    (vBody : Vector3) : ℝ :=
  calculateDragCoefficient params.parasiteDragCoefficient
    (clOf params config vBody) (aspectRatioOf params) params.oswaldEfficiency

/-- `liftN` (source line 540). -/
def liftNOf (params : AircraftParameters) (config : FdmConfig)
    (vBody : Vector3) : ℝ :=
  calculateLiftNewtons (clOf params config vBody) AIR_DENSITY_KG_M3
    (speedAeroOf vBody) params.wingAreaM2

/-- `dragN` (source line 541). -/
def dragNOf (params : AircraftParameters) (config : FdmConfig)
    (vBody : Vector3) : ℝ :=
  calculateDragNewtons (cdOf params config vBody) AIR_DENSITY_KG_M3
    (speedAeroOf vBody) params.wingAreaM2

/-- `thrustN` (source line 544): full thrust scaled by the clamped throttle. -/
def thrustNOf (params : AircraftParameters) (inputs : ControlInputs) : ℝ :=
  params.maxThrustN * clamp inputs.throttle 0 1

/-- `vHatBody` (source line 547). -/
def vHatBodyOf (vBody : Vector3) : Vector3 :=
  if speedAeroOf vBody < 1e-3 then ⟨1, 0, 0⟩ else normalize (vAeroBodyOf vBody)

/-- `liftDirBody` (source lines 549-550): perpendicular to the relative wind
and the span axis. -/
def liftDirBodyOf (vBody : Vector3) : Vector3 :=
  normalize (cross (vHatBodyOf vBody) ⟨0, 1, 0⟩)

/-- `dragDirBody` (source line 552): opposes the true (unclamped) body
velocity. -/
def dragDirBodyOf (vBody : Vector3) : Vector3 :=
  if magnitude vBody < 1e-3 then ⟨-1, 0, 0⟩
  else normalize ⟨-vBody.x, -vBody.y, -vBody.z⟩

/-- `sideForceN` (source lines 554-556): `qDyn * S * cyBeta * beta` with
`qDyn = 0.5 * ρ * speedAero²` and `cyBeta = -0.98`. -/
def sideForceNOf (params : AircraftParameters) (vBody : Vector3) : ℝ :=
  0.5 * AIR_DENSITY_KG_M3 * speedAeroOf vBody * speedAeroOf vBody *
    params.wingAreaM2 * (-0.98) * betaOf vBody

/-- `forceBody` (source lines 543-561): thrust along body-X plus lift, drag
and sideforce. -/
def bodyForce (params : AircraftParameters) (config : FdmConfig)
    (inputs : ControlInputs) (vBody : Vector3) : Vector3 :=
  add (add (add (scale ⟨1, 0, 0⟩ (thrustNOf params inputs))
        (scale (liftDirBodyOf vBody) (liftNOf params config vBody)))
      (scale (dragDirBodyOf vBody) (dragNOf params config vBody)))
    ⟨0, sideForceNOf params vBody, 0⟩

/-- The post-integration speed limiter, source lines 571-576: a velocity whose
magnitude exceeds 250 m/s is rescaled to that cap. -/
def capSpeed (v : Vector3) : Vector3 :=
  if magnitude v > 250 then scale (normalize v) 250 else v

/-- The commanded body rates `{p: pCmd, q: qCmd, r: rCmd}` (source lines
504-511), including the airspeed fade-out factor and the coordinated-yaw
term. -/
def commandedRates (config : FdmConfig) (inputs : ControlInputs)
    (state : AircraftState) : AngularRates :=
  let airspeedMS := magnitude state.velocityEnuMetersPerSec
  let speedFactor := clamp (airspeedMS / 50) 0 1
  ⟨inputs.ailerons * config.maxRollRateRadPerSec * config.rollRateGain *
      speedFactor,
    inputs.elevator * config.maxPitchRateRadPerSec * config.pitchRateGain *
      speedFactor,
    inputs.rudder * config.maxYawRateRadPerSec * config.yawRateGain *
        speedFactor +
      -Real.sin state.rollRad * config.maxYawRateRadPerSec *
        config.coordinationGain * speedFactor * 0.2⟩

/-- The substep's updated orientation (source line 512): quaternion
integration by the commanded rates. -/
def substepOrientation (config : FdmConfig) (inputs : ControlInputs)
    (dt : ℝ) (state : AircraftState) : Quaternion :=
  integrateOrientation state.orientation (commandedRates config inputs state).p
    (commandedRates config inputs state).q
    (commandedRates config inputs state).r dt

/-- The substep's body-frame airflow velocity (source lines 522-525): the
world-frame airflow velocity rotated into the body frame by the transposed
rotation matrix of the updated orientation. -/
def vBodyOf (config : FdmConfig) (inputs : ControlInputs) (dt : ℝ)
    (vAirWorld : Vector3) (state : AircraftState) : Vector3 :=
  multiplyMatrixVector3
    (transpose3 (matrixFromQuaternion (substepOrientation config inputs dt state)))
    vAirWorld

/-- The substep's net world-frame force (source lines 563-566): body force
rotated to ENU plus the constant gravity force. -/
def netForceEnuOf (params : AircraftParameters) (config : FdmConfig)
    (inputs : ControlInputs) (dt : ℝ) (vAirWorld : Vector3)
    (state : AircraftState) : Vector3 :=
  add
    (multiplyMatrixVector3
      (matrixFromQuaternion (substepOrientation config inputs dt state))
      (bodyForce params config inputs (vBodyOf config inputs dt vAirWorld state)))
    ⟨0, 0, -(params.massKg * GRAVITY_M_S2)⟩

/-- One substep of `FlightDynamicsModel.update` (source lines 500-577),
parameterised over the world-frame velocity `vAirWorld` fed to the
relative-airflow computation.  The source always passes the state's own world
velocity (see `substep`); the spec-modelled wind variant passes the
wind-relative velocity instead. -/
def substepCore (params : AircraftParameters) (config : FdmConfig)
    (inputs : ControlInputs) (dt : ℝ) (vAirWorld : Vector3)
    (state : AircraftState) : AircraftState :=
  let orientation := substepOrientation config inputs dt state
  let eul := yawPitchRollFromQuaternion orientation
  let velocity := capSpeed
    (add state.velocityEnuMetersPerSec
      (scale (scale (netForceEnuOf params config inputs dt vAirWorld state)
        (1 / params.massKg)) dt))
  { positionEnuMeters := add state.positionEnuMeters (scale velocity dt)
    velocityEnuMetersPerSec := velocity
    yawRad := eul.yaw
    pitchRad := clamp eul.pitch (-(Real.pi / 2) + 0.001) (Real.pi / 2 - 0.001)
    rollRad := eul.roll
    orientation := orientation
    angularRatesRadPerSec := commandedRates config inputs state }

/-- One substep of the source's `update`: the relative-airflow computation
uses the state's own world-frame velocity (no wind in the shipped
`flightDynamics.ts`). -/
def substep (params : AircraftParameters) (config : FdmConfig)
    (inputs : ControlInputs) (dt : ℝ) (state : AircraftState) : AircraftState :=
  substepCore params config inputs dt state.velocityEnuMetersPerSec state

/-- The `while (remaining > 1e-6)` loop of `update`, with explicit fuel.
Each iteration consumes `min 0.02 remaining` seconds and advances the state
by one `substep`. -/
def updateLoop (params : AircraftParameters) (config : FdmConfig)
    (inputs : ControlInputs) : ℕ → ℝ → AircraftState → AircraftState
  | 0, _, state => state
  | fuel + 1, remaining, state =>
    if remaining > 1e-6 then
      let dt := min 0.02 remaining
      updateLoop params config inputs fuel (remaining - dt)
        (substep params config inputs dt state)
    else state

/-- The list of substep durations consumed by `updateLoop` from a given
`remaining` budget. -/
def substepSchedule : ℕ → ℝ → List ℝ
  | 0, _ => []
  | fuel + 1, remaining =>
    if remaining > 1e-6 then
      min 0.02 remaining :: substepSchedule fuel (remaining - min 0.02 remaining)
    else []

/-- The `FlightDynamicsModel` class: immutable parameters and config plus the
mutable aircraft state, represented functionally. -/
structure FlightDynamicsModel where
  params : AircraftParameters
  config : FdmConfig
  state : AircraftState

/-- The `FlightDynamicsModel` constructor: stores the arguments and then
overwrites `state.orientation` with the quaternion derived from the supplied
Euler angles (source lines 484-490). -/
def FlightDynamicsModel.make (params : AircraftParameters)
    (initialState : AircraftState) (config : FdmConfig) : FlightDynamicsModel :=
  { params := params
    config := config
    state := { initialState with
      orientation := quaternionFromYawPitchRoll initialState.yawRad
        initialState.pitchRad initialState.rollRad } }

/-- `FlightDynamicsModel.update(dtSeconds, inputs)` (source lines 492-581):
no-op guard for non-finite or non-positive `dt`, then the capped substep
loop.  Fuel 13 is exact for any `remaining ≤ 0.25` (`updateLoop_fuel_stable`). -/
def update (dtSeconds : JsNum) (inputs : ControlInputs)
    (m : FlightDynamicsModel) : FlightDynamicsModel :=
  if jsIsFinite dtSeconds = false then m
  else if jsVal dtSeconds ≤ 0 then m
  else { m with
    state := updateLoop m.params m.config inputs 13
      (min (jsVal dtSeconds) 0.25) m.state }

/-- A sequence of `update(dt, controls)` calls applied in order. -/
def applyCalls (calls : List (JsNum × ControlInputs))
    (m : FlightDynamicsModel) : FlightDynamicsModel :=
  calls.foldl (fun acc c => update c.1 c.2 acc) m

/-- Componentwise vector difference (used by the spec-modelled wind variant:
wind is subtracted from the world velocity). -/
def vsub (a b : Vector3) : Vector3 := ⟨a.x - b.x, a.y - b.y, a.z - b.z⟩

/-- Modelled from the spec: the `FlightDynamicsModel` variant that carries the
ambient-wind vector set by `setWindEnuMetersPerSec`.  The wind-capable
`flightDynamics.ts` is absent from the repository snapshot (only its callers
in `main.ts` and the e2e tests reference the setter), so this model follows
the spec's words: an explicit wind configuration field on the model. -/
structure FlightDynamicsModelW where
  params : AircraftParameters
  config : FdmConfig
  state : AircraftState
  windEnuMetersPerSec : Vector3

/-- Modelled from the spec: `setWindEnuMetersPerSec(vector)` sets the ambient
wind used by the relative-airflow computation of subsequent updates. -/
def setWindEnuMetersPerSec (vector : Vector3) (m : FlightDynamicsModelW) :
    FlightDynamicsModelW :=
  { m with windEnuMetersPerSec := vector }

/-- Modelled from the spec: one substep with ambient wind — the wind vector is
subtracted from the world velocity before the body-frame transform of the
relative-airflow step; everything else is the source substep unchanged. -/
def substepW (params : AircraftParameters) (config : FdmConfig)
    (inputs : ControlInputs) (dt : ℝ) (wind : Vector3)
    (state : AircraftState) : AircraftState :=
  substepCore params config inputs dt
    (vsub state.velocityEnuMetersPerSec wind) state

/-- Modelled from the spec: the substep loop of the wind-carrying model. -/
def updateLoopW (params : AircraftParameters) (config : FdmConfig)
    (inputs : ControlInputs) (wind : Vector3) :
    ℕ → ℝ → AircraftState → AircraftState
  | 0, _, state => state
  | fuel + 1, remaining, state =>
    if remaining > 1e-6 then
      let dt := min 0.02 remaining
      updateLoopW params config inputs wind fuel (remaining - dt)
        (substepW params config inputs dt wind state)
    else state

/-- Modelled from the spec: `update` on the wind-carrying model. -/
def updateW (dtSeconds : JsNum) (inputs : ControlInputs)
    (m : FlightDynamicsModelW) : FlightDynamicsModelW :=
  if jsIsFinite dtSeconds = false then m
  else if jsVal dtSeconds ≤ 0 then m
  else { m with
    state := updateLoopW m.params m.config inputs m.windEnuMetersPerSec 13
      (min (jsVal dtSeconds) 0.25) m.state }

/-! ### Basic facts about the vector helpers -/

/-- The squared-sum expression underlying `magnitude`. -/
def normSq (v : Vector3) : ℝ := v.x ^ 2 + v.y ^ 2 + v.z ^ 2

lemma normSq_nonneg (v : Vector3) : 0 ≤ normSq v := by
  unfold normSq; positivity

lemma magnitude_eq_sqrt (v : Vector3) : magnitude v = Real.sqrt (normSq v) := rfl

lemma magnitude_nonneg (v : Vector3) : 0 ≤ magnitude v := Real.sqrt_nonneg _

lemma sq_magnitude (v : Vector3) : magnitude v ^ 2 = normSq v :=
  Real.sq_sqrt (normSq_nonneg v)

lemma magnitude_zero : magnitude ⟨0, 0, 0⟩ = 0 := by
  simp [magnitude, hypot3]

lemma magnitude_le_iff {v : Vector3} {c : ℝ} (hc : 0 ≤ c) :
    magnitude v ≤ c ↔ normSq v ≤ c ^ 2 := by
  rw [magnitude_eq_sqrt, Real.sqrt_le_iff]
  exact and_iff_right hc

lemma abs_z_le_magnitude (v : Vector3) : |v.z| ≤ magnitude v := by
  rw [← Real.sqrt_sq_eq_abs, magnitude_eq_sqrt]
  apply Real.sqrt_le_sqrt
  unfold normSq
  nlinarith [sq_nonneg v.x, sq_nonneg v.y]

lemma magnitude_scale (v : Vector3) (s : ℝ) :
    magnitude (scale v s) = |s| * magnitude v := by
  unfold magnitude hypot3 scale
  rw [← Real.sqrt_sq_eq_abs, ← Real.sqrt_mul (sq_nonneg s)]
  ring_nf

/-- `Vector3` as a point of three-dimensional Euclidean space. -/
def vecE (v : Vector3) : EuclideanSpace ℝ (Fin 3) := ![v.x, v.y, v.z]

lemma magnitude_eq_norm (v : Vector3) : magnitude v = ‖vecE v‖ := by
  rw [EuclideanSpace.norm_eq]
  simp [vecE, Fin.sum_univ_three, magnitude, hypot3, Real.norm_eq_abs, sq_abs]

lemma vecE_add (a b : Vector3) : vecE (add a b) = vecE a + vecE b := by
  funext i
  fin_cases i <;> simp [vecE, add]

lemma magnitude_add_le (a b : Vector3) :
    magnitude (add a b) ≤ magnitude a + magnitude b := by
  rw [magnitude_eq_norm, magnitude_eq_norm, magnitude_eq_norm, vecE_add]
  exact norm_add_le _ _

lemma magnitude_normalize_of_gt {v : Vector3} (h : magnitude v > 1e-6) :
    magnitude (normalize v) = 1 := by
  rw [normalize, if_pos h, magnitude_scale, abs_of_nonneg
    (by positivity : (0:ℝ) ≤ 1 / magnitude v)]
  field_simp

lemma magnitude_normalize_le_one (v : Vector3) :
    magnitude (normalize v) ≤ 1 := by
  by_cases h : magnitude v > 1e-6
  · rw [magnitude_normalize_of_gt h]
  · rw [normalize, if_neg h, magnitude_zero]; norm_num

/-! ### Unit-norm facts about the quaternion helpers -/

/-- The squared norm of a quaternion. -/
def quatNormSq (q : Quaternion) : ℝ := q.x ^ 2 + q.y ^ 2 + q.z ^ 2 + q.w ^ 2

lemma quatNormSq_nonneg (q : Quaternion) : 0 ≤ quatNormSq q := by
  unfold quatNormSq; positivity

lemma hypot4_eq_sqrt (q : Quaternion) :
    hypot4 q.x q.y q.z q.w = Real.sqrt (quatNormSq q) := rfl

/-- `quaternionNormalize` always returns a quaternion of squared norm `1`:
on zero input it returns the identity quaternion, otherwise it divides by the
(nonzero) magnitude. -/
lemma quatNormSq_quaternionNormalize (q : Quaternion) :
    quatNormSq (quaternionNormalize q) = 1 := by
  unfold quaternionNormalize
  by_cases h : hypot4 q.x q.y q.z q.w = 0
  · simp [h, quatNormSq]
  · simp only [h, if_false]
    unfold hypot4 at h ⊢
    have hsq : Real.sqrt (q.x ^ 2 + q.y ^ 2 + q.z ^ 2 + q.w ^ 2) ^ 2 =
        q.x ^ 2 + q.y ^ 2 + q.z ^ 2 + q.w ^ 2 :=
      Real.sq_sqrt (by positivity)
    have hS : 0 < q.x ^ 2 + q.y ^ 2 + q.z ^ 2 + q.w ^ 2 :=
      Real.sqrt_ne_zero'.mp h
    unfold quatNormSq
    simp only
    field_simp

lemma quatNormSq_integrateOrientation (q : Quaternion) (p qRate r dt : ℝ) :
    quatNormSq (integrateOrientation q p qRate r dt) = 1 :=
  quatNormSq_quaternionNormalize _

/-- The ZYX Euler-to-quaternion conversion always lands on the unit sphere:
the result is the Hamilton product of three unit quaternions. -/
lemma quatNormSq_quaternionFromYawPitchRoll (yaw pitch roll : ℝ) :
    quatNormSq (quaternionFromYawPitchRoll yaw pitch roll) = 1 := by
  have hy := Real.sin_sq_add_cos_sq (yaw * 0.5)
  have hp := Real.sin_sq_add_cos_sq (pitch * 0.5)
  have hr := Real.sin_sq_add_cos_sq (roll * 0.5)
  unfold quaternionFromYawPitchRoll quatNormSq
  simp only
  linear_combination
    ((Real.sin (pitch * 0.5) ^ 2 + Real.cos (pitch * 0.5) ^ 2) *
      (Real.sin (yaw * 0.5) ^ 2 + Real.cos (yaw * 0.5) ^ 2)) * hr +
    (Real.sin (yaw * 0.5) ^ 2 + Real.cos (yaw * 0.5) ^ 2) * hp + hy

/-- A rotation matrix built from a unit quaternion preserves the squared
Euclidean norm. -/
lemma normSq_mulMat_matrixFromQuaternion {q : Quaternion}
    (h : quatNormSq q = 1) (v : Vector3) :
    normSq (multiplyMatrixVector3 (matrixFromQuaternion q) v) = normSq v := by
  unfold quatNormSq at h
  unfold normSq multiplyMatrixVector3 matrixFromQuaternion
  simp only
  linear_combination
    (4 * q.z ^ 2 * v.y ^ 2 + 4 * q.z ^ 2 * v.x ^ 2 -
      8 * q.y * q.z * v.y * v.z + 4 * q.y ^ 2 * v.z ^ 2 +
      4 * q.y ^ 2 * v.x ^ 2 - 8 * q.x * q.z * v.x * v.z -
      8 * q.x * q.y * v.x * v.y + 4 * q.x ^ 2 * v.z ^ 2 +
      4 * q.x ^ 2 * v.y ^ 2) * h

/-- The transposed rotation matrix of a unit quaternion also preserves the
squared Euclidean norm (it is the rotation of the conjugate quaternion). -/
lemma normSq_mulMat_transpose_matrixFromQuaternion {q : Quaternion}
    (h : quatNormSq q = 1) (v : Vector3) :
    normSq (multiplyMatrixVector3 (transpose3 (matrixFromQuaternion q)) v) =
      normSq v := by
  unfold quatNormSq at h
  unfold normSq multiplyMatrixVector3 transpose3 matrixFromQuaternion
  simp only
  linear_combination
    (4 * q.z ^ 2 * v.y ^ 2 + 4 * q.z ^ 2 * v.x ^ 2 -
      8 * q.y * q.z * v.y * v.z + 4 * q.y ^ 2 * v.z ^ 2 +
      4 * q.y ^ 2 * v.x ^ 2 - 8 * q.x * q.z * v.x * v.z -
      8 * q.x * q.y * v.x * v.y + 4 * q.x ^ 2 * v.z ^ 2 +
      4 * q.x ^ 2 * v.y ^ 2) * h

lemma magnitude_mulMat_matrixFromQuaternion {q : Quaternion}
    (h : quatNormSq q = 1) (v : Vector3) :
    magnitude (multiplyMatrixVector3 (matrixFromQuaternion q) v) =
      magnitude v := by
  rw [magnitude_eq_sqrt, magnitude_eq_sqrt,
    normSq_mulMat_matrixFromQuaternion h]

lemma magnitude_mulMat_transpose_matrixFromQuaternion {q : Quaternion}
    (h : quatNormSq q = 1) (v : Vector3) :
    magnitude (multiplyMatrixVector3 (transpose3 (matrixFromQuaternion q)) v) =
      magnitude v := by
  rw [magnitude_eq_sqrt, magnitude_eq_sqrt,
    normSq_mulMat_transpose_matrixFromQuaternion h]

/-! ### Structure of the substep loop -/

lemma updateLoop_exit (p : AircraftParameters) (c : FdmConfig)
    (i : ControlInputs) {r : ℝ} (h : ¬r > 1e-6) :
    ∀ (n : ℕ) (s : AircraftState), updateLoop p c i n r s = s := by
  intro n s
  cases n with
  | zero => rfl
  | succ k => rw [updateLoop, if_neg h]

lemma substepSchedule_exit {r : ℝ} (h : ¬r > 1e-6) (n : ℕ) :
    substepSchedule n r = [] := by
  cases n with
  | zero => rfl
  | succ k => rw [substepSchedule, if_neg h]

/-- Enough fuel makes the substep loop insensitive to extra fuel: with
`remaining ≤ 0.02 * n`, fuel `n` already reaches the loop's exit condition.
Since `update` bounds `remaining` by `0.25 ≤ 0.02 * 13`, the fuel `13` used in
the embedding computes the source loop's exact result. -/
lemma updateLoop_fuel_stable (p : AircraftParameters) (c : FdmConfig)
    (i : ControlInputs) :
    ∀ (n m : ℕ) (r : ℝ) (s : AircraftState), r ≤ 0.02 * n →
      updateLoop p c i (n + m) r s = updateLoop p c i n r s := by
  intro n
  induction n with
  | zero =>
    intro m r s h
    norm_num at h
    have hr : ¬r > 1e-6 := by norm_num; linarith
    rw [updateLoop_exit p c i hr, updateLoop_exit p c i hr]
  | succ k ih =>
    intro m r s h
    by_cases hr : r > 1e-6
    · rw [Nat.succ_add, updateLoop, updateLoop, if_pos hr, if_pos hr]
      apply ih
      rcases le_total 0.02 r with hc | hc
      · rw [min_eq_left hc]
        push_cast [Nat.cast_succ] at h ⊢
        linarith
      · rw [min_eq_right hc, sub_self]
        positivity
    · rw [updateLoop_exit p c i hr, updateLoop_exit p c i hr]

/-- Same fuel-stability for the substep-duration schedule. -/
lemma substepSchedule_fuel_stable :
    ∀ (n m : ℕ) (r : ℝ), r ≤ 0.02 * n →
      substepSchedule (n + m) r = substepSchedule n r := by
  intro n
  induction n with
  | zero =>
    intro m r h
    norm_num at h
    have hr : ¬r > 1e-6 := by norm_num; linarith
    rw [substepSchedule_exit hr, substepSchedule_exit hr]
  | succ k ih =>
    intro m r h
    by_cases hr : r > 1e-6
    · rw [Nat.succ_add, substepSchedule, substepSchedule, if_pos hr, if_pos hr,
        ih m _ ?_]
      rcases le_total 0.02 r with hc | hc
      · rw [min_eq_left hc]
        push_cast [Nat.cast_succ] at h ⊢
        linarith
      · rw [min_eq_right hc, sub_self]
        positivity
    · rw [substepSchedule_exit hr, substepSchedule_exit hr]

/-- The loop is the left fold of `substep` over its duration schedule: the
state is advanced once per substep. -/
lemma updateLoop_eq_foldl (p : AircraftParameters) (c : FdmConfig)
    (i : ControlInputs) :
    ∀ (n : ℕ) (r : ℝ) (s : AircraftState),
      updateLoop p c i n r s =
        (substepSchedule n r).foldl (fun st d => substep p c i d st) s := by
  intro n
  induction n with
  | zero => intro r s; rfl
  | succ k ih =>
    intro r s
    by_cases hr : r > 1e-6
    · rw [updateLoop, substepSchedule, if_pos hr, if_pos hr, List.foldl_cons,
        ih]
    · rw [updateLoop_exit p c i hr, substepSchedule_exit hr, List.foldl_nil]

/-- Every scheduled substep duration is positive and at most 0.02 s. -/
lemma substepSchedule_mem :
    ∀ (n : ℕ) (r d : ℝ), d ∈ substepSchedule n r → 0 < d ∧ d ≤ 0.02 := by
  intro n
  induction n with
  | zero => intro r d hd; simp [substepSchedule] at hd
  | succ k ih =>
    intro r d hd
    rw [substepSchedule] at hd
    by_cases hr : r > 1e-6
    · rw [if_pos hr, List.mem_cons] at hd
      rcases hd with hd | hd
      · subst hd
        constructor
        · apply lt_min (by norm_num)
          calc (0:ℝ) < 1e-6 := by norm_num
            _ < r := hr
        · exact min_le_left _ _
      · exact ih _ _ hd
    · rw [if_neg hr] at hd
      simp at hd

/-- The budget left over after the scheduled substeps is nonnegative and at
most the loop's `1e-6` exit threshold (exactly zero whenever the loop runs to
a zero remainder, and up to `1e-6` when the exit condition discards a small
residue). -/
lemma substepSchedule_sum :
    ∀ (n : ℕ) (r : ℝ), 0 ≤ r → r ≤ 0.02 * n →
      0 ≤ r - (substepSchedule n r).sum ∧
        r - (substepSchedule n r).sum ≤ 1e-6 := by
  intro n
  induction n with
  | zero =>
    intro r h0 h
    norm_num at h
    simp [substepSchedule]
    constructor <;> linarith
  | succ k ih =>
    intro r h0 h
    by_cases hr : r > 1e-6
    · rw [substepSchedule, if_pos hr, List.sum_cons]
      have hmin : min 0.02 r ≤ r := min_le_right _ _
      have h0' : 0 ≤ r - min 0.02 r := by linarith
      have h' : r - min 0.02 r ≤ 0.02 * k := by
        rcases le_total 0.02 r with hc | hc
        · rw [min_eq_left hc]
          push_cast [Nat.cast_succ] at h ⊢
          linarith
        · rw [min_eq_right hc, sub_self]
          positivity
      have := ih (r - min 0.02 r) h0' h'
      constructor <;> [linarith [this.1]; linarith [this.2]]
    · rw [substepSchedule_exit hr]
      norm_num at hr ⊢
      exact ⟨h0, hr⟩

/-! ### Orientation unit-norm invariant -/

lemma quatNormSq_substepOrientation (c : FdmConfig) (i : ControlInputs)
    (dt : ℝ) (s : AircraftState) :
    quatNormSq (substepOrientation c i dt s) = 1 :=
  quatNormSq_integrateOrientation _ _ _ _ _

lemma substepCore_orientation (p : AircraftParameters) (c : FdmConfig)
    (i : ControlInputs) (dt : ℝ) (va : Vector3) (s : AircraftState) :
    (substepCore p c i dt va s).orientation = substepOrientation c i dt s :=
  rfl

lemma quatNormSq_updateLoop_orientation (p : AircraftParameters)
    (c : FdmConfig) (i : ControlInputs) :
    ∀ (n : ℕ) (r : ℝ) (s : AircraftState),
      quatNormSq s.orientation = 1 →
      quatNormSq (updateLoop p c i n r s).orientation = 1 := by
  intro n
  induction n with
  | zero => intro r s h; exact h
  | succ k ih =>
    intro r s h
    by_cases hr : r > 1e-6
    · rw [updateLoop, if_pos hr]
      refine ih _ _ ?_
      rw [substep, substepCore_orientation]
      exact quatNormSq_substepOrientation c i _ s
    · rw [updateLoop, if_neg hr]; exact h

lemma quatNormSq_update_orientation (dt : JsNum) (i : ControlInputs)
    (m : FlightDynamicsModel) (h : quatNormSq m.state.orientation = 1) :
    quatNormSq (update dt i m).state.orientation = 1 := by
  unfold update
  by_cases h1 : jsIsFinite dt = false
  · rw [if_pos h1]; exact h
  · rw [if_neg h1]
    by_cases h2 : jsVal dt ≤ 0
    · rw [if_pos h2]; exact h
    · rw [if_neg h2]
      exact quatNormSq_updateLoop_orientation _ _ _ _ _ _ h

lemma quatNormSq_make_orientation (p : AircraftParameters)
    (s : AircraftState) (c : FdmConfig) :
    quatNormSq (FlightDynamicsModel.make p s c).state.orientation = 1 :=
  quatNormSq_quaternionFromYawPitchRoll _ _ _

lemma applyCalls_cons (c : JsNum × ControlInputs)
    (l : List (JsNum × ControlInputs)) (m : FlightDynamicsModel) :
    applyCalls (c :: l) m = applyCalls l (update c.1 c.2 m) := rfl

lemma quatNormSq_applyCalls (calls : List (JsNum × ControlInputs))
    (m : FlightDynamicsModel) (h : quatNormSq m.state.orientation = 1) :
    quatNormSq (applyCalls calls m).state.orientation = 1 := by
  induction calls generalizing m with
  | nil => exact h
  | cons cab rest ih =>
    rw [applyCalls_cons]
    exact ih _ (quatNormSq_update_orientation cab.1 cab.2 m h)

/-- Claim C1: for every sequence of `update(dt, controls)` calls with any dt
values and any control inputs, the orientation quaternion of the aircraft
state has magnitude equal to 1 after every call returns (the quaternion is
renormalized after every integration substep, and the constructor installs a
unit quaternion; in the exact-real embedding the magnitude is exactly 1). -/
theorem C1_orientation_magnitude_one (params : AircraftParameters)
    (s0 : AircraftState) (config : FdmConfig)
    (calls : List (JsNum × ControlInputs)) :
    hypot4
      (applyCalls calls (FlightDynamicsModel.make params s0 config)).state.orientation.x
      (applyCalls calls (FlightDynamicsModel.make params s0 config)).state.orientation.y
      (applyCalls calls (FlightDynamicsModel.make params s0 config)).state.orientation.z
      (applyCalls calls (FlightDynamicsModel.make params s0 config)).state.orientation.w
      = 1 := by
  have h := quatNormSq_applyCalls calls _
    (quatNormSq_make_orientation params s0 config)
  rw [hypot4_eq_sqrt, h, Real.sqrt_one]

/-! ### The 250 m/s speed cap -/

lemma capSpeed_magnitude_le_250 (v : Vector3) : magnitude (capSpeed v) ≤ 250 := by
  unfold capSpeed
  by_cases h : magnitude v > 250
  · rw [if_pos h, magnitude_scale,
      magnitude_normalize_of_gt (by linarith : magnitude v > 1e-6)]
    norm_num
  · rw [if_neg h]
    exact not_lt.mp h

lemma capSpeed_magnitude_le_self (v : Vector3) :
    magnitude (capSpeed v) ≤ magnitude v := by
  unfold capSpeed
  by_cases h : magnitude v > 250
  · rw [if_pos h, magnitude_scale,
      magnitude_normalize_of_gt (by linarith : magnitude v > 1e-6)]
    norm_num
    linarith
  · rw [if_neg h]

lemma capSpeed_eq_of_gt {v : Vector3} (h : magnitude v > 250) :
    capSpeed v = scale v (250 / magnitude v) ∧
      magnitude (capSpeed v) = 250 := by
  have h6 : magnitude v > 1e-6 := by linarith
  constructor
  · rw [capSpeed, if_pos h, normalize, if_pos h6]
    ext <;> simp [scale] <;> ring
  · rw [capSpeed, if_pos h, magnitude_scale, magnitude_normalize_of_gt h6]
    norm_num

lemma capSpeed_of_le {v : Vector3} (h : magnitude v ≤ 250) :
    capSpeed v = v := by
  rw [capSpeed, if_neg (not_lt.mpr h)]

lemma substepCore_velocity (p : AircraftParameters) (c : FdmConfig)
    (i : ControlInputs) (dt : ℝ) (va : Vector3) (s : AircraftState) :
    (substepCore p c i dt va s).velocityEnuMetersPerSec =
      capSpeed (add s.velocityEnuMetersPerSec
        (scale (scale (netForceEnuOf p c i dt va s) (1 / p.massKg)) dt)) :=
  rfl

lemma magnitude_substep_velocity_le_250 (p : AircraftParameters)
    (c : FdmConfig) (i : ControlInputs) (dt : ℝ) (s : AircraftState) :
    magnitude (substep p c i dt s).velocityEnuMetersPerSec ≤ 250 := by
  rw [substep, substepCore_velocity]
  exact capSpeed_magnitude_le_250 _

lemma updateLoop_velocity_le_250 (p : AircraftParameters) (c : FdmConfig)
    (i : ControlInputs) :
    ∀ (n : ℕ) (r : ℝ) (s : AircraftState),
      magnitude s.velocityEnuMetersPerSec ≤ 250 →
      magnitude (updateLoop p c i n r s).velocityEnuMetersPerSec ≤ 250 := by
  intro n
  induction n with
  | zero => intro r s h; exact h
  | succ k ih =>
    intro r s h
    by_cases hr : r > 1e-6
    · rw [updateLoop, if_pos hr]
      exact ih _ _ (magnitude_substep_velocity_le_250 p c i _ s)
    · rw [updateLoop, if_neg hr]; exact h

lemma updateLoop_velocity_le_250_of_run (p : AircraftParameters)
    (c : FdmConfig) (i : ControlInputs) (n : ℕ) {r : ℝ} (hr : r > 1e-6)
    (s : AircraftState) :
    magnitude (updateLoop p c i (n + 1) r s).velocityEnuMetersPerSec ≤ 250 := by
  rw [updateLoop, if_pos hr]
  exact updateLoop_velocity_le_250 p c i n _ _
    (magnitude_substep_velocity_le_250 p c i _ s)

lemma update_velocity_le_250 (dt : JsNum) (i : ControlInputs)
    (m : FlightDynamicsModel)
    (h : magnitude m.state.velocityEnuMetersPerSec ≤ 250) :
    magnitude (update dt i m).state.velocityEnuMetersPerSec ≤ 250 := by
  unfold update
  by_cases h1 : jsIsFinite dt = false
  · rw [if_pos h1]; exact h
  · rw [if_neg h1]
    by_cases h2 : jsVal dt ≤ 0
    · rw [if_pos h2]; exact h
    · rw [if_neg h2]
      exact updateLoop_velocity_le_250 _ _ _ _ _ _ h

lemma applyCalls_velocity_le_250 (calls : List (JsNum × ControlInputs))
    (m : FlightDynamicsModel)
    (h : magnitude m.state.velocityEnuMetersPerSec ≤ 250) :
    magnitude (applyCalls calls m).state.velocityEnuMetersPerSec ≤ 250 := by
  induction calls generalizing m with
  | nil => exact h
  | cons cab rest ih =>
    rw [applyCalls_cons]
    exact ih _ (update_velocity_le_250 cab.1 cab.2 m h)

/-- Claim C4: after every update call the world-frame speed is at most
250 m/s, for every control input and number of calls — any call that performs
at least one substep enforces the bound unconditionally, the bound is
invariant under arbitrary call sequences, and whenever velocity integration
produces a speed above 250 the velocity is rescaled to magnitude exactly 250
while keeping its direction (a positive multiple of the integrated
velocity). -/
theorem C4_speed_cap_invariant :
    (∀ (m : FlightDynamicsModel) (calls : List (JsNum × ControlInputs)),
      magnitude m.state.velocityEnuMetersPerSec ≤ 250 →
      magnitude (applyCalls calls m).state.velocityEnuMetersPerSec ≤ 250) ∧
    (∀ (m : FlightDynamicsModel) (i : ControlInputs) (x : ℝ), 1e-6 < x →
      magnitude (update (JsNum.num x) i m).state.velocityEnuMetersPerSec ≤
        250) ∧
    (∀ v : Vector3, magnitude v > 250 →
      capSpeed v = scale v (250 / magnitude v) ∧
        magnitude (capSpeed v) = 250) := by
  refine ⟨fun m calls h => applyCalls_velocity_le_250 calls m h, ?_,
    fun v h => capSpeed_eq_of_gt h⟩
  intro m i x hx
  unfold update
  rw [if_neg (by simp [jsIsFinite]), if_neg (by simp [jsVal]; linarith)]
  have h13 : (13 : ℕ) = 12 + 1 := rfl
  rw [h13]
  exact updateLoop_velocity_le_250_of_run _ _ _ 12
    (lt_min_iff.mpr ⟨by simpa [jsVal] using hx, by norm_num⟩) _

/-- Witness for C4 at a concrete input: the default aircraft starts within
the cap and stays within it. -/
theorem C4_speed_cap_invariant_witness :
    magnitude (applyCalls []
      (FlightDynamicsModel.make defaultAircraftParameters
        defaultAircraftState DefaultFdmConfig)).state.velocityEnuMetersPerSec
      ≤ 250 :=
  C4_speed_cap_invariant.1 _ []
    (by show magnitude ⟨0, 0, 0⟩ ≤ 250
        rw [magnitude_zero]; norm_num)

/-! ### Pure aerodynamic coefficient claims -/

/-- Claim C7: for every angle of attack within the stall bound the lift
coefficient is linear with slope `clSlopePerRad`; strictly outside the bound
it saturates at the boundary value `clSlopePerRad * (±stallAlphaRad)` (stated
for a nonnegative stall angle, as configured). -/
theorem C7_lift_coefficient_linear_saturated
    (clSlopePerRad stallAlphaRad alpha : ℝ) (hst : 0 ≤ stallAlphaRad) :
    (|alpha| ≤ stallAlphaRad →
      calculateLiftCoefficient alpha clSlopePerRad stallAlphaRad =
        clSlopePerRad * alpha) ∧
    (stallAlphaRad < alpha →
      calculateLiftCoefficient alpha clSlopePerRad stallAlphaRad =
        clSlopePerRad * stallAlphaRad) ∧
    (alpha < -stallAlphaRad →
      calculateLiftCoefficient alpha clSlopePerRad stallAlphaRad =
        clSlopePerRad * (-stallAlphaRad)) := by
  unfold calculateLiftCoefficient clamp
  refine ⟨fun h => ?_, fun h => ?_, fun h => ?_⟩
  · rw [abs_le] at h
    rw [min_eq_right h.2, max_eq_right h.1]
  · rw [min_eq_left h.le, max_eq_right (by linarith)]
  · rw [min_eq_right (by linarith), max_eq_left h.le]

/-- Witness for C7 at concrete inputs: slope 2, stall angle 1, α = 3 is past
the stall bound and saturates at `2 * 1`. -/
theorem C7_lift_coefficient_linear_saturated_witness :
    calculateLiftCoefficient 3 2 1 = 2 * 1 :=
  (C7_lift_coefficient_linear_saturated 2 1 3 (by norm_num)).2.1 (by norm_num)

/-- Claim C8: for fixed coefficient, density and wing area, lift scales
quadratically with speed (`L(2v) = 4·L(v)`), and both lift and drag are
exactly zero at zero speed. -/
theorem C8_lift_quadratic_zero_at_rest
    (cl cd airDensity speed wingArea : ℝ) :
    calculateLiftNewtons cl airDensity (2 * speed) wingArea =
      4 * calculateLiftNewtons cl airDensity speed wingArea ∧
    calculateLiftNewtons cl airDensity 0 wingArea = 0 ∧
    calculateDragNewtons cd airDensity 0 wingArea = 0 := by
  unfold calculateLiftNewtons calculateDragNewtons
  exact ⟨by ring, by ring, by ring⟩

/-- Claim C9: `update` with a non-finite (`NaN`, `±∞`) or non-positive `dt`
is an exact no-op: the model, hence every field of the aircraft state, is
returned unchanged (and, being a total function, no error is raised). -/
theorem C9_nonpositive_or_nonfinite_dt_noop (dt : JsNum) (i : ControlInputs)
    (m : FlightDynamicsModel) (h : jsIsFinite dt = false ∨ jsVal dt ≤ 0) :
    update dt i m = m := by
  unfold update
  rcases h with h | h
  · rw [if_pos h]
  · by_cases h1 : jsIsFinite dt = false
    · rw [if_pos h1]
    · rw [if_neg h1, if_pos h]

/-- Witness for C9 at a concrete input: `update(NaN, zero controls)` on the
default aircraft leaves the model unchanged. -/
theorem C9_nonpositive_or_nonfinite_dt_noop_witness :
    update JsNum.nan ⟨0, 0, 0, 0⟩
      (FlightDynamicsModel.make defaultAircraftParameters
        defaultAircraftState DefaultFdmConfig) =
    FlightDynamicsModel.make defaultAircraftParameters
      defaultAircraftState DefaultFdmConfig :=
  C9_nonpositive_or_nonfinite_dt_noop JsNum.nan ⟨0, 0, 0, 0⟩ _ (Or.inl rfl)

/-- Claim C10: the constructor always overwrites the supplied orientation
quaternion with the one derived from the supplied Euler angles (ZYX), so an
initial orientation disagreeing with the Euler angles is discarded before the
first update. -/
theorem C10_constructor_overwrites_orientation (params : AircraftParameters)
    (initialState : AircraftState) (config : FdmConfig) :
    (FlightDynamicsModel.make params initialState config).state =
      { initialState with
        orientation := quaternionFromYawPitchRoll initialState.yawRad
          initialState.pitchRad initialState.rollRad } ∧
    ∀ q' : Quaternion,
      FlightDynamicsModel.make params
        { initialState with orientation := q' } config =
      FlightDynamicsModel.make params initialState config :=
  ⟨rfl, fun _ => rfl⟩

/-! ### Time consumption of the substep loop (C3) -/

/-- The total simulated time consumed by one `update(dt, ·)` call with finite
positive `dt`: the sum of the substep durations of the loop's schedule. -/
def consumedTime (dt : ℝ) : ℝ := (substepSchedule 13 (min dt 0.25)).sum

/-- Counterexample to Claim C3 as stated: at `dt = 1e-6` the loop condition
`remaining > 1e-6` fails immediately, zero substeps run, and the discarded
residue equals exactly `1e-6` — which is not *smaller* than `1e-6`. -/
theorem C3_counterexample_residue_boundary :
    ¬(min (1e-6 : ℝ) 0.25 - consumedTime 1e-6 < 1e-6) := by
  have hmin : min (1e-6 : ℝ) 0.25 = 1e-6 := min_eq_left (by norm_num)
  have hsched : substepSchedule 13 (min (1e-6 : ℝ) 0.25) = [] := by
    rw [hmin]
    exact substepSchedule_exit (by norm_num) 13
  unfold consumedTime
  rw [hsched, hmin, List.sum_nil]
  norm_num

/-- Claim C3 (amended): for every finite `dt > 0` the simulated time consumed
equals `min(dt, 0.25)` up to a discarded residue that is nonnegative and *at
most* `1e-6` s (the loop exits when `remaining ≤ 1e-6`, so a residue of
exactly `1e-6` is also discarded); the time is consumed in successive
substeps, each positive and of at most 0.02 s, and the state is advanced once
per substep — the update is the left fold of `substep` over the substep
schedule, not a single step per call. -/
theorem C3_time_consumption_substeps (x : ℝ) (i : ControlInputs)
    (m : FlightDynamicsModel) (hx : 0 < x) :
    0 ≤ min x 0.25 - consumedTime x ∧
    min x 0.25 - consumedTime x ≤ 1e-6 ∧
    (∀ d ∈ substepSchedule 13 (min x 0.25), 0 < d ∧ d ≤ 0.02) ∧
    (update (JsNum.num x) i m).state =
      (substepSchedule 13 (min x 0.25)).foldl
        (fun st d => substep m.params m.config i d st) m.state := by
  have h0 : 0 ≤ min x 0.25 := le_min hx.le (by norm_num)
  have h1 : min x 0.25 ≤ 0.02 * (13 : ℕ) := by
    push_cast
    calc min x 0.25 ≤ 0.25 := min_le_right _ _
      _ ≤ 0.02 * 13 := by norm_num
  have hsum := substepSchedule_sum 13 _ h0 h1
  unfold consumedTime
  refine ⟨hsum.1, hsum.2, fun d hd => substepSchedule_mem 13 _ d hd, ?_⟩
  unfold update
  rw [if_neg (by simp [jsIsFinite]), if_neg (by simp [jsVal]; linarith)]
  simp only [jsVal]
  exact updateLoop_eq_foldl m.params m.config i 13 _ m.state

/-- Witness for the amended C3 at the concrete input `dt = 0.05`. -/
theorem C3_time_consumption_substeps_witness :
    0 ≤ min (0.05 : ℝ) 0.25 - consumedTime 0.05 :=
  (C3_time_consumption_substeps 0.05 ⟨0, 0, 0, 0⟩
    (FlightDynamicsModel.make defaultAircraftParameters defaultAircraftState
      DefaultFdmConfig) (by norm_num)).1

/-! ### Control clamping (C5) -/

lemma clamp_idem {lo hi : ℝ} (h : lo ≤ hi) (x : ℝ) :
    clamp (clamp x lo hi) lo hi = clamp x lo hi := by
  unfold clamp
  have hle : max lo (min hi x) ≤ hi := max_le h (min_le_left _ _)
  have hge : lo ≤ max lo (min hi x) := le_max_left _ _
  rw [min_eq_right hle, max_eq_right hge]

lemma substepCore_rates (p : AircraftParameters) (c : FdmConfig)
    (i : ControlInputs) (dt : ℝ) (va : Vector3) (s : AircraftState) :
    (substepCore p c i dt va s).angularRatesRadPerSec =
      commandedRates c i s := rfl

/-- A state moving east at 50 m/s with identity attitude; at 50 m/s the
control-effectiveness speed factor is exactly 1. -/
def stateAt50 : AircraftState :=
  { defaultAircraftState with velocityEnuMetersPerSec := ⟨50, 0, 0⟩ }

lemma magnitude_v50 : magnitude ⟨50, 0, 0⟩ = 50 := by
  unfold magnitude hypot3
  have h : (50 : ℝ) ^ 2 + 0 ^ 2 + 0 ^ 2 = 50 ^ 2 := by norm_num
  rw [h, Real.sqrt_sq (by norm_num : (0 : ℝ) ≤ 50)]

lemma commandedRates_p_of_v50 (i : ControlInputs) (s : AircraftState)
    (hv : s.velocityEnuMetersPerSec = ⟨50, 0, 0⟩) :
    (commandedRates DefaultFdmConfig i s).p = i.ailerons * Real.pi * 0.6 := by
  show i.ailerons * DefaultFdmConfig.maxRollRateRadPerSec *
      DefaultFdmConfig.rollRateGain *
      clamp (magnitude s.velocityEnuMetersPerSec / 50) 0 1 =
    i.ailerons * Real.pi * 0.6
  rw [hv, magnitude_v50]
  norm_num [clamp, DefaultFdmConfig]

/-- `update(0.01, ·)` performs exactly one substep of duration 0.01 s. -/
lemma update_001_eq_substep (i : ControlInputs) (m : FlightDynamicsModel) :
    update (JsNum.num 0.01) i m =
      { m with state := substep m.params m.config i 0.01 m.state } := by
  unfold update
  rw [if_neg (by simp [jsIsFinite]), if_neg (by simp [jsVal]; norm_num)]
  simp only [jsVal]
  have hloop : updateLoop m.params m.config i 13 (min (0.01 : ℝ) 0.25)
      m.state = substep m.params m.config i 0.01 m.state := by
    rw [min_eq_left (by norm_num), show (13 : ℕ) = 12 + 1 from rfl,
      updateLoop, if_pos (show (0.01 : ℝ) > 1e-6 by norm_num)]
    dsimp only
    rw [min_eq_right (show (0.01 : ℝ) ≤ 0.02 by norm_num),
      show (0.01 : ℝ) - 0.01 = 0 from by norm_num]
    exact updateLoop_exit _ _ _ (by norm_num) 12 _
  rw [hloop]

/-- Counterexample to Claim C5 as stated: the model does not clamp the
aileron input.  From a 50 m/s state, one `update(0.01, ·)` call with
`ailerons = 2` commands a roll rate of `2 · π · 0.6`, while the
componentwise-clamped inputs command `1 · π · 0.6` — the resulting states
differ, so out-of-range controls do not produce the same state change as
their clamped values. -/
theorem C5_counterexample_ailerons_not_clamped :
    update (JsNum.num 0.01) ⟨0, 2, 0, 0⟩
      (FlightDynamicsModel.make defaultAircraftParameters stateAt50
        DefaultFdmConfig) ≠
    update (JsNum.num 0.01)
      ⟨clamp 0 (-1) 1, clamp 2 (-1) 1, clamp 0 (-1) 1, clamp 0 0 1⟩
      (FlightDynamicsModel.make defaultAircraftParameters stateAt50
        DefaultFdmConfig) := by
  intro heq
  have h := congrArg
    (fun m : FlightDynamicsModel => m.state.angularRatesRadPerSec.p) heq
  rw [update_001_eq_substep, update_001_eq_substep] at h
  simp only [substep, substepCore_rates] at h
  dsimp only [FlightDynamicsModel.make] at h
  rw [commandedRates_p_of_v50 _ _ rfl, commandedRates_p_of_v50 _ _ rfl] at h
  dsimp only at h
  rw [show clamp 2 (-1) 1 = 1 from by norm_num [clamp]] at h
  nlinarith [Real.pi_pos, h]

lemma bodyForce_throttle_clamped (p : AircraftParameters) (c : FdmConfig)
    (e a r t : ℝ) (vB : Vector3) :
    bodyForce p c ⟨e, a, r, clamp t 0 1⟩ vB =
      bodyForce p c ⟨e, a, r, t⟩ vB := by
  unfold bodyForce thrustNOf
  dsimp only
  rw [clamp_idem (by norm_num : (0 : ℝ) ≤ 1)]

lemma netForceEnuOf_throttle_clamped (p : AircraftParameters) (c : FdmConfig)
    (e a r t : ℝ) (d : ℝ) (va : Vector3) (s : AircraftState) :
    netForceEnuOf p c ⟨e, a, r, clamp t 0 1⟩ d va s =
      netForceEnuOf p c ⟨e, a, r, t⟩ d va s := by
  unfold netForceEnuOf
  rw [bodyForce_throttle_clamped]
  rfl

lemma substep_throttle_clamped (p : AircraftParameters) (c : FdmConfig)
    (e a r t : ℝ) (d : ℝ) (s : AircraftState) :
    substep p c ⟨e, a, r, clamp t 0 1⟩ d s = substep p c ⟨e, a, r, t⟩ d s := by
  unfold substep substepCore
  rw [netForceEnuOf_throttle_clamped]
  rfl

lemma updateLoop_congr (p : AircraftParameters) (c : FdmConfig)
    (i1 i2 : ControlInputs)
    (h : ∀ (d : ℝ) (s : AircraftState), substep p c i1 d s = substep p c i2 d s) :
    ∀ (n : ℕ) (r : ℝ) (s : AircraftState),
      updateLoop p c i1 n r s = updateLoop p c i2 n r s := by
  intro n
  induction n with
  | zero => intro r s; rfl
  | succ k ih =>
    intro r s
    by_cases hr : r > 1e-6
    · rw [updateLoop, updateLoop, if_pos hr, if_pos hr]
      dsimp only
      rw [h, ih]
    · rw [updateLoop_exit _ _ _ hr, updateLoop_exit _ _ _ hr]

/-- Claim C5 (amended): the model clamps only the throttle (to `[0,1]`, at
the thrust computation) — supplying an out-of-range throttle never fails and
produces exactly the same state change as the clamped throttle.  Elevator,
ailerons and rudder are used as supplied, without clamping (their `[-1,1]`
clamping lives in the caller's input handling, not in the model). -/
theorem C5_only_throttle_clamped (dt : JsNum) (e a r t : ℝ)
    (m : FlightDynamicsModel) :
    update dt ⟨e, a, r, t⟩ m = update dt ⟨e, a, r, clamp t 0 1⟩ m := by
  unfold update
  by_cases h1 : jsIsFinite dt = false
  · rw [if_pos h1, if_pos h1]
  · rw [if_neg h1, if_neg h1]
    by_cases h2 : jsVal dt ≤ 0
    · rw [if_pos h2, if_pos h2]
    · rw [if_neg h2, if_neg h2]
      have := updateLoop_congr m.params m.config ⟨e, a, r, t⟩
        ⟨e, a, r, clamp t 0 1⟩
        (fun d s => (substep_throttle_clamped m.params m.config e a r t d s).symm)
        13 (min (jsVal dt) 0.25) m.state
      rw [this]

/-! ### Force bounds for the free-fall analysis (C2) -/

lemma clamp_throttle_zero {t : ℝ} (ht : t ≤ 0) : clamp t 0 1 = 0 := by
  unfold clamp
  rw [min_eq_right (le_trans ht zero_le_one), max_eq_left ht]

lemma abs_clamp_le {a : ℝ} (ha : 0 ≤ a) (x : ℝ) : |clamp x (-a) a| ≤ a := by
  unfold clamp
  rw [abs_le]
  exact ⟨le_max_left _ _, max_le (by linarith) (min_le_left _ _)⟩

lemma sq_max_zero_le (x : ℝ) : max 0 x ^ 2 ≤ x ^ 2 := by
  rcases le_total 0 x with h | h
  · rw [max_eq_right h]
  · rw [max_eq_left h]; nlinarith

lemma speedAeroOf_nonneg (vB : Vector3) : 0 ≤ speedAeroOf vB :=
  magnitude_nonneg _

lemma speedAeroOf_le_magnitude (vB : Vector3) :
    speedAeroOf vB ≤ magnitude vB := by
  unfold speedAeroOf vAeroBodyOf
  rw [magnitude_eq_sqrt, magnitude_eq_sqrt]
  apply Real.sqrt_le_sqrt
  unfold normSq
  dsimp only
  linarith [sq_max_zero_le vB.x]

lemma abs_atan2_le_of_pos {y x : ℝ} (hx : 0 < x) :
    |atan2 y x| ≤ Real.pi / 2 := by
  unfold atan2
  rw [if_pos hx]
  exact abs_le.mpr ⟨(Real.neg_pi_div_two_lt_arctan _).le,
    (Real.arctan_lt_pi_div_two _).le⟩

lemma abs_betaOf_le (vB : Vector3) : |betaOf vB| ≤ Real.pi / 2 := by
  unfold betaOf
  by_cases h : speedAeroOf vB < 0.1
  · rw [if_pos h, abs_zero]; positivity
  · rw [if_neg h]
    apply abs_atan2_le_of_pos
    unfold hypot2
    apply Real.sqrt_pos.mpr
    have h6 := le_max_left (1e-6 : ℝ) (vAeroBodyOf vB).x
    nlinarith [sq_nonneg (vAeroBodyOf vB).z]

lemma abs_clOf_le (vB : Vector3) :
    |clOf defaultAircraftParameters DefaultFdmConfig vB| ≤ 1.4923 := by
  unfold clOf calculateLiftCoefficient
  have hst : (0 : ℝ) ≤ 15 * (Real.pi / 180) := by positivity
  have hc : |clamp (alphaOf vB) (-(15 * (Real.pi / 180)))
      (15 * (Real.pi / 180))| ≤ 15 * (Real.pi / 180) :=
    abs_clamp_le hst (alphaOf vB)
  show |defaultAircraftParameters.clSlopePerRad *
    clamp (alphaOf vB) (-DefaultFdmConfig.stallAlphaRad)
      DefaultFdmConfig.stallAlphaRad| ≤ 1.4923
  have h57 : defaultAircraftParameters.clSlopePerRad = 5.7 := rfl
  have hstc : DefaultFdmConfig.stallAlphaRad = 15 * (Real.pi / 180) := rfl
  rw [abs_mul, h57, hstc]
  have hpi : Real.pi < 3.141593 := Real.pi_lt_d6
  rw [show |(5.7 : ℝ)| = 5.7 from by norm_num]
  nlinarith [hc, abs_nonneg (clamp (alphaOf vB) (-(15 * (Real.pi / 180)))
    (15 * (Real.pi / 180)))]

lemma cdOf_bounds (vB : Vector3) :
    0 ≤ cdOf defaultAircraftParameters DefaultFdmConfig vB ∧
      cdOf defaultAircraftParameters DefaultFdmConfig vB ≤ 0.1487 := by
  have hcl := abs_clOf_le vB
  have hcl2 : clOf defaultAircraftParameters DefaultFdmConfig vB ^ 2 ≤
      1.4923 ^ 2 := sq_le_sq' (by linarith [abs_le.mp hcl]) (abs_le.mp hcl).2
  unfold cdOf calculateDragCoefficient
  have har : aspectRatioOf defaultAircraftParameters = 121 / 16.2 := by
    unfold aspectRatioOf
    norm_num [defaultAircraftParameters]
  have hcd0 : defaultAircraftParameters.parasiteDragCoefficient = 0.03 := rfl
  have hosw : defaultAircraftParameters.oswaldEfficiency = 0.8 := rfl
  rw [har, hcd0, hosw]
  have hpi_gt : 3.141592 < Real.pi := Real.pi_gt_d6
  have hpi_pos : 0 < Real.pi := Real.pi_pos
  have hD : 18.77 ≤ Real.pi * (121 / 16.2) * 0.8 := by nlinarith
  have hDpos : 0 < Real.pi * (121 / 16.2) * 0.8 := by positivity
  have hk0 : 0 ≤ 1 / (Real.pi * (121 / 16.2) * 0.8) := by positivity
  have hk : 1 / (Real.pi * (121 / 16.2) * 0.8) ≤ 0.0533 := by
    rw [div_le_iff₀ hDpos]
    nlinarith
  set cl := clOf defaultAircraftParameters DefaultFdmConfig vB
  constructor
  · nlinarith [mul_nonneg hk0 (sq_nonneg cl)]
  · nlinarith [mul_le_mul hk hcl2 (sq_nonneg cl) (by norm_num : (0:ℝ) ≤ 0.0533)]

lemma magnitude_y_axis (t : ℝ) : magnitude ⟨0, t, 0⟩ = |t| := by
  unfold magnitude hypot3
  rw [show (0 : ℝ) ^ 2 + t ^ 2 + 0 ^ 2 = t ^ 2 by ring, Real.sqrt_sq_eq_abs]

lemma magnitude_z_axis (t : ℝ) : magnitude ⟨0, 0, t⟩ = |t| := by
  unfold magnitude hypot3
  rw [show (0 : ℝ) ^ 2 + 0 ^ 2 + t ^ 2 = t ^ 2 by ring, Real.sqrt_sq_eq_abs]

lemma abs_liftNOf_le (vB : Vector3) :
    |liftNOf defaultAircraftParameters DefaultFdmConfig vB| ≤
      14.81 * speedAeroOf vB ^ 2 := by
  have hcl := abs_clOf_le vB
  have hsA := speedAeroOf_nonneg vB
  unfold liftNOf calculateLiftNewtons
  have hρ : AIR_DENSITY_KG_M3 = 1.225 := rfl
  have hS : defaultAircraftParameters.wingAreaM2 = 16.2 := rfl
  rw [hρ, hS]
  simp only [abs_mul]
  rw [abs_of_nonneg hsA]
  rw [show |(0.5 : ℝ)| = 0.5 from by norm_num,
    show |(1.225 : ℝ)| = 1.225 from by norm_num,
    show |(16.2 : ℝ)| = 16.2 from by norm_num]
  nlinarith [mul_nonneg hsA hsA,
    mul_nonneg (mul_nonneg hsA hsA)
      (abs_nonneg (clOf defaultAircraftParameters DefaultFdmConfig vB)),
    mul_le_mul_of_nonneg_right hcl (mul_nonneg hsA hsA)]

lemma dragNOf_bounds (vB : Vector3) :
    0 ≤ dragNOf defaultAircraftParameters DefaultFdmConfig vB ∧
      dragNOf defaultAircraftParameters DefaultFdmConfig vB ≤
        1.476 * speedAeroOf vB ^ 2 := by
  have hcd := cdOf_bounds vB
  have hsA := speedAeroOf_nonneg vB
  unfold dragNOf calculateDragNewtons
  have hρ : AIR_DENSITY_KG_M3 = 1.225 := rfl
  have hS : defaultAircraftParameters.wingAreaM2 = 16.2 := rfl
  rw [hρ, hS]
  constructor
  · nlinarith [mul_nonneg hsA hsA, mul_nonneg hcd.1 (mul_nonneg hsA hsA)]
  · nlinarith [mul_nonneg hsA hsA,
      mul_le_mul_of_nonneg_right hcd.2 (mul_nonneg hsA hsA)]

lemma abs_sideForceNOf_le (vB : Vector3) :
    |sideForceNOf defaultAircraftParameters vB| ≤
      15.275 * speedAeroOf vB ^ 2 := by
  have hβ := abs_betaOf_le vB
  have hsA := speedAeroOf_nonneg vB
  have hpi : Real.pi < 3.141593 := Real.pi_lt_d6
  unfold sideForceNOf
  have hρ : AIR_DENSITY_KG_M3 = 1.225 := rfl
  have hS : defaultAircraftParameters.wingAreaM2 = 16.2 := rfl
  rw [hρ, hS]
  simp only [abs_mul]
  rw [abs_of_nonneg hsA]
  rw [show |(0.5 : ℝ)| = 0.5 from by norm_num,
    show |(1.225 : ℝ)| = 1.225 from by norm_num,
    show |(16.2 : ℝ)| = 16.2 from by norm_num,
    show |(-0.98 : ℝ)| = 0.98 from by norm_num]
  nlinarith [mul_nonneg hsA hsA,
    mul_nonneg (mul_nonneg hsA hsA) (abs_nonneg (betaOf vB)),
    mul_le_mul_of_nonneg_right hβ (mul_nonneg hsA hsA)]

lemma magnitude_dragDirBodyOf_le_one (vB : Vector3) :
    magnitude (dragDirBodyOf vB) ≤ 1 := by
  unfold dragDirBodyOf
  by_cases h : magnitude vB < 1e-3
  · rw [if_pos h]
    unfold magnitude hypot3
    rw [show (-1 : ℝ) ^ 2 + 0 ^ 2 + 0 ^ 2 = 1 by ring, Real.sqrt_one]
  · rw [if_neg h]
    exact magnitude_normalize_le_one _

/-- With the throttle at or below zero, the magnitude of the body-frame force
of the default aircraft is at most `31.57` times the squared magnitude of the
body-frame velocity (thrust vanishes; lift, drag and sideforce coefficients
are bounded by the stall clamp, the drag polar, and the `π/2` sideslip
bound). -/
lemma magnitude_bodyForce_le (i : ControlInputs) (ht : i.throttle ≤ 0)
    (vB : Vector3) :
    magnitude (bodyForce defaultAircraftParameters DefaultFdmConfig i vB) ≤
      31.57 * magnitude vB ^ 2 := by
  unfold bodyForce
  have hT : thrustNOf defaultAircraftParameters i = 0 := by
    unfold thrustNOf
    rw [clamp_throttle_zero ht, mul_zero]
  rw [hT]
  have hsA := speedAeroOf_nonneg vB
  have hAle := speedAeroOf_le_magnitude vB
  have hsq : speedAeroOf vB ^ 2 ≤ magnitude vB ^ 2 :=
    pow_le_pow_left₀ hsA hAle 2
  have hA : magnitude (scale ⟨1, 0, 0⟩ 0) = 0 := by
    rw [magnitude_scale]
    simp
  have hB : magnitude (scale (liftDirBodyOf vB)
      (liftNOf defaultAircraftParameters DefaultFdmConfig vB)) ≤
      14.81 * speedAeroOf vB ^ 2 := by
    rw [magnitude_scale]
    have h1 := magnitude_normalize_le_one
      (cross (vHatBodyOf vB) ⟨0, 1, 0⟩)
    have h2 := abs_liftNOf_le vB
    have h0 := abs_nonneg (liftNOf defaultAircraftParameters DefaultFdmConfig vB)
    have h3 := magnitude_nonneg (liftDirBodyOf vB)
    calc |liftNOf defaultAircraftParameters DefaultFdmConfig vB| *
        magnitude (liftDirBodyOf vB)
        ≤ |liftNOf defaultAircraftParameters DefaultFdmConfig vB| * 1 := by
          exact mul_le_mul_of_nonneg_left h1 h0
      _ ≤ 14.81 * speedAeroOf vB ^ 2 := by rw [mul_one]; exact h2
  have hC : magnitude (scale (dragDirBodyOf vB)
      (dragNOf defaultAircraftParameters DefaultFdmConfig vB)) ≤
      1.476 * speedAeroOf vB ^ 2 := by
    rw [magnitude_scale]
    have h1 := magnitude_dragDirBodyOf_le_one vB
    have h2 := dragNOf_bounds vB
    have h0 := abs_nonneg (dragNOf defaultAircraftParameters DefaultFdmConfig vB)
    calc |dragNOf defaultAircraftParameters DefaultFdmConfig vB| *
        magnitude (dragDirBodyOf vB)
        ≤ |dragNOf defaultAircraftParameters DefaultFdmConfig vB| * 1 :=
          mul_le_mul_of_nonneg_left h1 h0
      _ = dragNOf defaultAircraftParameters DefaultFdmConfig vB := by
          rw [mul_one, abs_of_nonneg h2.1]
      _ ≤ 1.476 * speedAeroOf vB ^ 2 := h2.2
  have hD : magnitude (⟨0, sideForceNOf defaultAircraftParameters vB, 0⟩ :
      Vector3) ≤ 15.275 * speedAeroOf vB ^ 2 := by
    rw [magnitude_y_axis]
    exact abs_sideForceNOf_le vB
  have t1 := magnitude_add_le
    (add (add (scale ⟨1, 0, 0⟩ 0)
      (scale (liftDirBodyOf vB) (liftNOf defaultAircraftParameters DefaultFdmConfig vB)))
      (scale (dragDirBodyOf vB) (dragNOf defaultAircraftParameters DefaultFdmConfig vB)))
    ⟨0, sideForceNOf defaultAircraftParameters vB, 0⟩
  have t2 := magnitude_add_le
    (add (scale ⟨1, 0, 0⟩ 0)
      (scale (liftDirBodyOf vB) (liftNOf defaultAircraftParameters DefaultFdmConfig vB)))
    (scale (dragDirBodyOf vB) (dragNOf defaultAircraftParameters DefaultFdmConfig vB))
  have t3 := magnitude_add_le (scale ⟨1, 0, 0⟩ 0)
    (scale (liftDirBodyOf vB) (liftNOf defaultAircraftParameters DefaultFdmConfig vB))
  linarith [sq_nonneg (magnitude vB), sq_nonneg (speedAeroOf vB)]

/-- With zero throttle, one substep of duration `d ≥ 0` grows the speed by at
most `d` times gravity plus the quadratic aerodynamic-force bound. -/
lemma substep_velocity_growth (i : ControlInputs) (ht : i.throttle ≤ 0)
    {d : ℝ} (hd : 0 ≤ d) (s : AircraftState) :
    magnitude (substep defaultAircraftParameters DefaultFdmConfig i d
        s).velocityEnuMetersPerSec ≤
      magnitude s.velocityEnuMetersPerSec +
        d * (9.80665 + 31.57 / 1110 *
          magnitude s.velocityEnuMetersPerSec ^ 2) := by
  rw [substep, substepCore_velocity]
  have hq := quatNormSq_substepOrientation DefaultFdmConfig i d s
  have hvB : magnitude (vBodyOf DefaultFdmConfig i d
      s.velocityEnuMetersPerSec s) = magnitude s.velocityEnuMetersPerSec := by
    unfold vBodyOf
    exact magnitude_mulMat_transpose_matrixFromQuaternion hq _
  have hF := magnitude_bodyForce_le i ht
    (vBodyOf DefaultFdmConfig i d s.velocityEnuMetersPerSec s)
  rw [hvB] at hF
  have hRF : magnitude (multiplyMatrixVector3
      (matrixFromQuaternion (substepOrientation DefaultFdmConfig i d s))
      (bodyForce defaultAircraftParameters DefaultFdmConfig i
        (vBodyOf DefaultFdmConfig i d s.velocityEnuMetersPerSec s))) =
      magnitude (bodyForce defaultAircraftParameters DefaultFdmConfig i
        (vBodyOf DefaultFdmConfig i d s.velocityEnuMetersPerSec s)) :=
    magnitude_mulMat_matrixFromQuaternion hq _
  have hG : magnitude (⟨0, 0,
      -(defaultAircraftParameters.massKg * GRAVITY_M_S2)⟩ : Vector3) =
      1110 * 9.80665 := by
    rw [magnitude_z_axis]
    norm_num [defaultAircraftParameters, GRAVITY_M_S2]
  have hnet : magnitude (netForceEnuOf defaultAircraftParameters
      DefaultFdmConfig i d s.velocityEnuMetersPerSec s) ≤
      31.57 * magnitude s.velocityEnuMetersPerSec ^ 2 + 1110 * 9.80665 := by
    unfold netForceEnuOf
    have := magnitude_add_le (multiplyMatrixVector3
      (matrixFromQuaternion (substepOrientation DefaultFdmConfig i d s))
      (bodyForce defaultAircraftParameters DefaultFdmConfig i
        (vBodyOf DefaultFdmConfig i d s.velocityEnuMetersPerSec s)))
      ⟨0, 0, -(defaultAircraftParameters.massKg * GRAVITY_M_S2)⟩
    rw [hRF, hG] at this
    linarith
  have hmass : defaultAircraftParameters.massKg = 1110 := rfl
  calc magnitude (capSpeed (add s.velocityEnuMetersPerSec
        (scale (scale (netForceEnuOf defaultAircraftParameters
          DefaultFdmConfig i d s.velocityEnuMetersPerSec s)
          (1 / defaultAircraftParameters.massKg)) d)))
      ≤ magnitude (add s.velocityEnuMetersPerSec
        (scale (scale (netForceEnuOf defaultAircraftParameters
          DefaultFdmConfig i d s.velocityEnuMetersPerSec s)
          (1 / defaultAircraftParameters.massKg)) d)) :=
        capSpeed_magnitude_le_self _
    _ ≤ magnitude s.velocityEnuMetersPerSec +
        magnitude (scale (scale (netForceEnuOf defaultAircraftParameters
          DefaultFdmConfig i d s.velocityEnuMetersPerSec s)
          (1 / defaultAircraftParameters.massKg)) d) := magnitude_add_le _ _
    _ = magnitude s.velocityEnuMetersPerSec +
        d * (1 / 1110 * magnitude (netForceEnuOf defaultAircraftParameters
          DefaultFdmConfig i d s.velocityEnuMetersPerSec s)) := by
        rw [magnitude_scale, magnitude_scale, hmass,
          abs_of_nonneg hd,
          abs_of_nonneg (by norm_num : (0:ℝ) ≤ 1 / 1110)]
    _ ≤ magnitude s.velocityEnuMetersPerSec +
        d * (9.80665 + 31.57 / 1110 *
          magnitude s.velocityEnuMetersPerSec ^ 2) := by
        have hb : 1 / 1110 * magnitude (netForceEnuOf defaultAircraftParameters
            DefaultFdmConfig i d s.velocityEnuMetersPerSec s) ≤
            9.80665 + 31.57 / 1110 *
              magnitude s.velocityEnuMetersPerSec ^ 2 := by linarith
        nlinarith [mul_le_mul_of_nonneg_left hb hd]

/-- Below 2.69 m/s of speed the per-substep growth rate is at most
10.015 m/s². -/
lemma substep_velocity_growth_small (i : ControlInputs) (ht : i.throttle ≤ 0)
    {d : ℝ} (hd : 0 ≤ d) (s : AircraftState)
    (hv : magnitude s.velocityEnuMetersPerSec ≤ 2.69) :
    magnitude (substep defaultAircraftParameters DefaultFdmConfig i d
        s).velocityEnuMetersPerSec ≤
      magnitude s.velocityEnuMetersPerSec + d * 10.015 := by
  have h := substep_velocity_growth i ht hd s
  have h0 := magnitude_nonneg s.velocityEnuMetersPerSec
  have hrate : 9.80665 + 31.57 / 1110 *
      magnitude s.velocityEnuMetersPerSec ^ 2 ≤ 10.015 := by nlinarith
  nlinarith [mul_le_mul_of_nonneg_left hrate hd]

/-- Loop invariant for the free-fall bound: starting within the time-linear
speed envelope, the loop's final speed is at most `10.015 * 0.25`. -/
lemma updateLoop_velocity_envelope (i : ControlInputs) (ht : i.throttle ≤ 0) :
    ∀ (n : ℕ) (r : ℝ) (s : AircraftState), 0 ≤ r → r ≤ 0.25 →
      magnitude s.velocityEnuMetersPerSec ≤ 10.015 * (0.25 - r) →
      magnitude (updateLoop defaultAircraftParameters DefaultFdmConfig i n r
        s).velocityEnuMetersPerSec ≤ 10.015 * 0.25 := by
  intro n
  induction n with
  | zero =>
    intro r s h0 h25 hv
    calc magnitude (updateLoop defaultAircraftParameters DefaultFdmConfig i 0
          r s).velocityEnuMetersPerSec
        = magnitude s.velocityEnuMetersPerSec := rfl
      _ ≤ 10.015 * (0.25 - r) := hv
      _ ≤ 10.015 * 0.25 := by nlinarith
  | succ k ih =>
    intro r s h0 h25 hv
    by_cases hr : r > 1e-6
    · rw [updateLoop, if_pos hr]
      dsimp only
      have hd0 : 0 ≤ min 0.02 r := le_min (by norm_num) (by linarith)
      have hdr : min 0.02 r ≤ r := min_le_right _ _
      refine ih (r - min 0.02 r) _ (by linarith) (by linarith) ?_
      have hvs : magnitude s.velocityEnuMetersPerSec ≤ 2.69 := by nlinarith
      have hstep := substep_velocity_growth_small i ht hd0 s hvs
      calc magnitude (substep defaultAircraftParameters DefaultFdmConfig i
            (min 0.02 r) s).velocityEnuMetersPerSec
          ≤ magnitude s.velocityEnuMetersPerSec + min 0.02 r * 10.015 := hstep
        _ ≤ 10.015 * (0.25 - r) + min 0.02 r * 10.015 := by linarith
        _ = 10.015 * (0.25 - (r - min 0.02 r)) := by ring
    · rw [updateLoop, if_neg hr]
      calc magnitude s.velocityEnuMetersPerSec ≤ 10.015 * (0.25 - r) := hv
        _ ≤ 10.015 * 0.25 := by nlinarith

/-- Claim C2 (code bug witness): starting from the default aircraft state
with zero velocity and all controls zero, the repository's own unit test
calls `update(1, controls)` once and asserts the vertical velocity is
`-9.80665 ± 0.0005`.  On this code that call consumes only 0.25 s of
simulated time (the dt cap), leaving the whole speed below 2.504 m/s, so the
vertical velocity misses `-9.80665` by more than 7 m/s — the 3-decimal
closeness claim is false on the code. -/
theorem C2_gravity_one_second_divergence :
    0.0005 < |(update (JsNum.num 1) ⟨0, 0, 0, 0⟩
      (FlightDynamicsModel.make defaultAircraftParameters
        defaultAircraftState
        DefaultFdmConfig)).state.velocityEnuMetersPerSec.z - (-9.80665)| := by
  have hmain : magnitude (update (JsNum.num 1) ⟨0, 0, 0, 0⟩
      (FlightDynamicsModel.make defaultAircraftParameters defaultAircraftState
        DefaultFdmConfig)).state.velocityEnuMetersPerSec ≤ 10.015 * 0.25 := by
    unfold update
    rw [if_neg (by simp [jsIsFinite]), if_neg (by simp [jsVal])]
    simp only [jsVal]
    rw [min_eq_right (by norm_num : (0.25 : ℝ) ≤ 1)]
    refine updateLoop_velocity_envelope ⟨0, 0, 0, 0⟩ (by norm_num) 13 0.25 _
      (by norm_num) (by norm_num) ?_
    show magnitude ⟨0, 0, 0⟩ ≤ 10.015 * (0.25 - 0.25)
    rw [magnitude_zero]
    norm_num
  have hz := abs_z_le_magnitude (update (JsNum.num 1) ⟨0, 0, 0, 0⟩
    (FlightDynamicsModel.make defaultAircraftParameters defaultAircraftState
      DefaultFdmConfig)).state.velocityEnuMetersPerSec
  have h1 : |(update (JsNum.num 1) ⟨0, 0, 0, 0⟩
      (FlightDynamicsModel.make defaultAircraftParameters defaultAircraftState
        DefaultFdmConfig)).state.velocityEnuMetersPerSec.z| ≤ 2.50375 := by
    calc |(update (JsNum.num 1) ⟨0, 0, 0, 0⟩
        (FlightDynamicsModel.make defaultAircraftParameters
          defaultAircraftState
          DefaultFdmConfig)).state.velocityEnuMetersPerSec.z|
        ≤ magnitude (update (JsNum.num 1) ⟨0, 0, 0, 0⟩
          (FlightDynamicsModel.make defaultAircraftParameters
            defaultAircraftState
            DefaultFdmConfig)).state.velocityEnuMetersPerSec := hz
      _ ≤ 10.015 * 0.25 := hmain
      _ = 2.50375 := by norm_num
  rw [abs_le] at h1
  have h2 : 0.0005 < (update (JsNum.num 1) ⟨0, 0, 0, 0⟩
      (FlightDynamicsModel.make defaultAircraftParameters defaultAircraftState
        DefaultFdmConfig)).state.velocityEnuMetersPerSec.z - (-9.80665) := by
    linarith [h1.1]
  calc (0.0005 : ℝ)
      < (update (JsNum.num 1) ⟨0, 0, 0, 0⟩
        (FlightDynamicsModel.make defaultAircraftParameters
          defaultAircraftState
          DefaultFdmConfig)).state.velocityEnuMetersPerSec.z - (-9.80665) :=
        h2
    _ ≤ |(update (JsNum.num 1) ⟨0, 0, 0, 0⟩
        (FlightDynamicsModel.make defaultAircraftParameters
          defaultAircraftState
          DefaultFdmConfig)).state.velocityEnuMetersPerSec.z - (-9.80665)| :=
        le_abs_self _

/-! ### The spec-modelled wind interface (C6) -/

lemma updateLoopW_exit (p : AircraftParameters) (c : FdmConfig)
    (i : ControlInputs) (w : Vector3) {r : ℝ} (h : ¬r > 1e-6) :
    ∀ (n : ℕ) (s : AircraftState), updateLoopW p c i w n r s = s := by
  intro n s
  cases n with
  | zero => rfl
  | succ k => rw [updateLoopW, if_neg h]

/-- `updateW(0.02, ·)` performs exactly one wind-aware substep. -/
lemma updateW_002_eq_substepW (i : ControlInputs) (m : FlightDynamicsModelW) :
    updateW (JsNum.num 0.02) i m =
      { m with state := substepW m.params m.config i 0.02
                          m.windEnuMetersPerSec m.state } := by
  unfold updateW
  rw [if_neg (by simp [jsIsFinite]), if_neg (by simp [jsVal]; norm_num)]
  simp only [jsVal]
  have hloop : updateLoopW m.params m.config i m.windEnuMetersPerSec 13
      (min (0.02 : ℝ) 0.25) m.state =
      substepW m.params m.config i 0.02 m.windEnuMetersPerSec m.state := by
    rw [min_eq_left (by norm_num), show (13 : ℕ) = 12 + 1 from rfl,
      updateLoopW, if_pos (show (0.02 : ℝ) > 1e-6 by norm_num)]
    dsimp only
    rw [min_self, show (0.02 : ℝ) - 0.02 = 0 from by norm_num]
    exact updateLoopW_exit _ _ _ _ (by norm_num) 12 _
  rw [hloop]

lemma commandedRates_rest (i : ControlInputs) :
    commandedRates DefaultFdmConfig i defaultAircraftState = ⟨0, 0, 0⟩ := by
  unfold commandedRates
  dsimp only
  have hv : magnitude defaultAircraftState.velocityEnuMetersPerSec = 0 := by
    rw [show defaultAircraftState.velocityEnuMetersPerSec =
      (⟨0, 0, 0⟩ : Vector3) from rfl, magnitude_zero]
  ext <;> dsimp only <;> rw [hv] <;>
    rw [show clamp (0 / 50) 0 1 = 0 from by norm_num [clamp]] <;> ring

lemma quaternionNormalize_id :
    quaternionNormalize ⟨0, 0, 0, 1⟩ = ⟨0, 0, 0, 1⟩ := by
  have h : hypot4 (0 : ℝ) 0 0 1 = 1 := by
    unfold hypot4
    rw [show (0 : ℝ) ^ 2 + 0 ^ 2 + 0 ^ 2 + 1 ^ 2 = 1 by norm_num,
      Real.sqrt_one]
  unfold quaternionNormalize
  dsimp only
  rw [h, if_neg (by norm_num)]
  ext <;> norm_num

lemma integrateOrientation_id_zero (dt : ℝ) :
    integrateOrientation ⟨0, 0, 0, 1⟩ 0 0 0 dt = ⟨0, 0, 0, 1⟩ := by
  unfold integrateOrientation quaternionMultiply
  dsimp only
  norm_num
  exact quaternionNormalize_id

lemma substepOrientation_rest (i : ControlInputs) (dt : ℝ) :
    substepOrientation DefaultFdmConfig i dt defaultAircraftState =
      ⟨0, 0, 0, 1⟩ := by
  unfold substepOrientation
  rw [commandedRates_rest i]
  dsimp only
  rw [show defaultAircraftState.orientation = (⟨0, 0, 0, 1⟩ : Quaternion)
    from rfl]
  exact integrateOrientation_id_zero dt

lemma matrixFromQuaternion_id :
    matrixFromQuaternion ⟨0, 0, 0, 1⟩ = ⟨1, 0, 0, 0, 1, 0, 0, 0, 1⟩ := by
  unfold matrixFromQuaternion
  ext <;> dsimp only <;> norm_num

lemma vBodyOf_rest (i : ControlInputs) (dt : ℝ) (va : Vector3) :
    vBodyOf DefaultFdmConfig i dt va defaultAircraftState = va := by
  unfold vBodyOf
  rw [substepOrientation_rest, matrixFromQuaternion_id,
    show transpose3 ⟨1, 0, 0, 0, 1, 0, 0, 0, 1⟩ =
      (⟨1, 0, 0, 0, 1, 0, 0, 0, 1⟩ : Mat3) from rfl]
  unfold multiplyMatrixVector3
  ext <;> dsimp only <;> ring

lemma atan2_zero_of_pos {x : ℝ} (hx : 0 < x) : atan2 0 x = 0 := by
  unfold atan2
  rw [if_pos hx, zero_div, Real.arctan_zero]

lemma clamp_zero_sym {a : ℝ} (ha : 0 ≤ a) : clamp 0 (-a) a = 0 := by
  unfold clamp
  rw [min_eq_right ha, max_eq_right (by linarith : -a ≤ 0)]

lemma magnitude_neg50 : magnitude ⟨-50, 0, 0⟩ = 50 := by
  unfold magnitude hypot3
  rw [show (-50 : ℝ) ^ 2 + 0 ^ 2 + 0 ^ 2 = 50 ^ 2 by norm_num,
    Real.sqrt_sq (by norm_num : (0 : ℝ) ≤ 50)]

lemma normalize_neg50 : normalize ⟨-50, 0, 0⟩ = ⟨-1, 0, 0⟩ := by
  unfold normalize
  rw [magnitude_neg50, if_pos (by norm_num : (50 : ℝ) > 1e-6)]
  unfold scale
  ext <;> dsimp only <;> norm_num

lemma speedAeroOf_50 : speedAeroOf ⟨50, 0, 0⟩ = 50 := by
  unfold speedAeroOf vAeroBodyOf
  dsimp only
  rw [show max (0 : ℝ) 50 = 50 from max_eq_right (by norm_num)]
  exact magnitude_v50

lemma speedAeroOf_vzero : speedAeroOf ⟨0, 0, 0⟩ = 0 := by
  unfold speedAeroOf vAeroBodyOf
  dsimp only
  rw [max_self]
  exact magnitude_zero

lemma bodyForce_rest_wind :
    bodyForce defaultAircraftParameters DefaultFdmConfig ⟨0, 0, 0, 0⟩
      ⟨50, 0, 0⟩ = ⟨-744.1875, 0, 0⟩ := by
  have hst : (0 : ℝ) ≤ 15 * (Real.pi / 180) := by positivity
  have halpha : alphaOf ⟨50, 0, 0⟩ = 0 := by
    unfold alphaOf
    rw [if_neg (by rw [speedAeroOf_50]; norm_num)]
    show atan2 (vAeroBodyOf ⟨50, 0, 0⟩).z
      (max 1e-3 (vAeroBodyOf ⟨50, 0, 0⟩).x) = 0
    rw [show (vAeroBodyOf ⟨50, 0, 0⟩).z = 0 from rfl,
      show (vAeroBodyOf ⟨50, 0, 0⟩).x = max 0 50 from rfl,
      show max (0 : ℝ) 50 = 50 from max_eq_right (by norm_num),
      show max (1e-3 : ℝ) 50 = 50 from max_eq_right (by norm_num)]
    exact atan2_zero_of_pos (by norm_num)
  have hbeta : betaOf ⟨50, 0, 0⟩ = 0 := by
    unfold betaOf
    rw [if_neg (by rw [speedAeroOf_50]; norm_num)]
    show atan2 (vAeroBodyOf ⟨50, 0, 0⟩).y
      (hypot2 (max 1e-6 (vAeroBodyOf ⟨50, 0, 0⟩).x)
        (vAeroBodyOf ⟨50, 0, 0⟩).z) = 0
    rw [show (vAeroBodyOf ⟨50, 0, 0⟩).y = 0 from rfl]
    apply atan2_zero_of_pos
    unfold hypot2
    apply Real.sqrt_pos.mpr
    have h6 := le_max_left (1e-6 : ℝ) (vAeroBodyOf ⟨50, 0, 0⟩).x
    nlinarith [sq_nonneg (vAeroBodyOf ⟨50, 0, 0⟩).z]
  have hcl : clOf defaultAircraftParameters DefaultFdmConfig ⟨50, 0, 0⟩ = 0 := by
    unfold clOf calculateLiftCoefficient
    rw [halpha,
      show DefaultFdmConfig.stallAlphaRad = 15 * (Real.pi / 180) from rfl,
      clamp_zero_sym hst, mul_zero]
  have hcd : cdOf defaultAircraftParameters DefaultFdmConfig ⟨50, 0, 0⟩ =
      0.03 := by
    unfold cdOf calculateDragCoefficient
    rw [hcl]
    norm_num [defaultAircraftParameters]
  have hlift : liftNOf defaultAircraftParameters DefaultFdmConfig
      ⟨50, 0, 0⟩ = 0 := by
    unfold liftNOf calculateLiftNewtons
    rw [hcl]
    ring
  have hdrag : dragNOf defaultAircraftParameters DefaultFdmConfig
      ⟨50, 0, 0⟩ = 744.1875 := by
    unfold dragNOf calculateDragNewtons
    rw [hcd, speedAeroOf_50]
    norm_num [AIR_DENSITY_KG_M3]
    rw [show defaultAircraftParameters.wingAreaM2 = (16.2 : ℝ) from rfl]
    norm_num
  have hthrust : thrustNOf defaultAircraftParameters ⟨0, 0, 0, 0⟩ = 0 := by
    unfold thrustNOf
    rw [show (⟨0, 0, 0, 0⟩ : ControlInputs).throttle = 0 from rfl,
      clamp_throttle_zero le_rfl, mul_zero]
  have hdragdir : dragDirBodyOf ⟨50, 0, 0⟩ = ⟨-1, 0, 0⟩ := by
    unfold dragDirBodyOf
    rw [if_neg (by rw [magnitude_v50]; norm_num)]
    rw [show (⟨-(⟨(50:ℝ), 0, 0⟩ : Vector3).x, -(⟨(50:ℝ), 0, 0⟩ : Vector3).y,
      -(⟨(50:ℝ), 0, 0⟩ : Vector3).z⟩ : Vector3) = ⟨-50, 0, 0⟩ from by
        ext <;> norm_num]
    exact normalize_neg50
  have hside : sideForceNOf defaultAircraftParameters ⟨50, 0, 0⟩ = 0 := by
    unfold sideForceNOf
    rw [hbeta, mul_zero]
  unfold bodyForce
  rw [hthrust, hlift, hdrag, hside, hdragdir]
  unfold add scale
  ext <;> dsimp only <;> norm_num

lemma bodyForce_rest_calm :
    bodyForce defaultAircraftParameters DefaultFdmConfig ⟨0, 0, 0, 0⟩
      ⟨0, 0, 0⟩ = ⟨0, 0, 0⟩ := by
  have hlift : liftNOf defaultAircraftParameters DefaultFdmConfig
      ⟨0, 0, 0⟩ = 0 := by
    unfold liftNOf calculateLiftNewtons
    rw [speedAeroOf_vzero]
    ring
  have hdrag : dragNOf defaultAircraftParameters DefaultFdmConfig
      ⟨0, 0, 0⟩ = 0 := by
    unfold dragNOf calculateDragNewtons
    rw [speedAeroOf_vzero]
    ring
  have hside : sideForceNOf defaultAircraftParameters ⟨0, 0, 0⟩ = 0 := by
    unfold sideForceNOf
    rw [speedAeroOf_vzero]
    ring
  have hthrust : thrustNOf defaultAircraftParameters ⟨0, 0, 0, 0⟩ = 0 := by
    unfold thrustNOf
    rw [show (⟨0, 0, 0, 0⟩ : ControlInputs).throttle = 0 from rfl,
      clamp_throttle_zero le_rfl, mul_zero]
  unfold bodyForce
  rw [hthrust, hlift, hdrag, hside]
  unfold add scale
  ext <;> dsimp only <;> norm_num

lemma netForceEnuOf_rest_wind :
    netForceEnuOf defaultAircraftParameters DefaultFdmConfig ⟨0, 0, 0, 0⟩
      0.02 ⟨50, 0, 0⟩ defaultAircraftState =
      ⟨-744.1875, 0, -(1110 * 9.80665)⟩ := by
  unfold netForceEnuOf
  rw [substepOrientation_rest, matrixFromQuaternion_id, vBodyOf_rest,
    bodyForce_rest_wind]
  unfold multiplyMatrixVector3 add
  ext <;> dsimp only <;>
    norm_num [defaultAircraftParameters, GRAVITY_M_S2]

lemma netForceEnuOf_rest_calm :
    netForceEnuOf defaultAircraftParameters DefaultFdmConfig ⟨0, 0, 0, 0⟩
      0.02 ⟨0, 0, 0⟩ defaultAircraftState = ⟨0, 0, -(1110 * 9.80665)⟩ := by
  unfold netForceEnuOf
  rw [substepOrientation_rest, matrixFromQuaternion_id, vBodyOf_rest,
    bodyForce_rest_calm]
  unfold multiplyMatrixVector3 add
  ext <;> dsimp only <;>
    norm_num [defaultAircraftParameters, GRAVITY_M_S2]

lemma substepW_rest_wind_vel :
    (substepW defaultAircraftParameters DefaultFdmConfig ⟨0, 0, 0, 0⟩ 0.02
      ⟨-50, 0, 0⟩ defaultAircraftState).velocityEnuMetersPerSec.x =
      -(744.1875 / 1110 * 0.02) := by
  rw [substepW,
    show vsub defaultAircraftState.velocityEnuMetersPerSec ⟨-50, 0, 0⟩ =
      (⟨50, 0, 0⟩ : Vector3) from by
        rw [show defaultAircraftState.velocityEnuMetersPerSec =
          (⟨0, 0, 0⟩ : Vector3) from rfl]
        unfold vsub
        ext <;> norm_num,
    substepCore_velocity, netForceEnuOf_rest_wind]
  have hvel : add defaultAircraftState.velocityEnuMetersPerSec
      (scale (scale (⟨-744.1875, 0, -(1110 * 9.80665)⟩ : Vector3)
        (1 / defaultAircraftParameters.massKg)) 0.02) =
      ⟨-(744.1875 / 1110 * 0.02), 0, -(9.80665 * 0.02)⟩ := by
    rw [show defaultAircraftState.velocityEnuMetersPerSec =
      (⟨0, 0, 0⟩ : Vector3) from rfl,
      show defaultAircraftParameters.massKg = (1110 : ℝ) from rfl]
    unfold add scale
    ext <;> dsimp only <;> norm_num
  rw [hvel, capSpeed_of_le (by
    rw [magnitude_le_iff (by norm_num : (0 : ℝ) ≤ 250)]
    unfold normSq
    dsimp only
    norm_num)]

lemma substepW_rest_calm_vel :
    (substepW defaultAircraftParameters DefaultFdmConfig ⟨0, 0, 0, 0⟩ 0.02
      ⟨0, 0, 0⟩ defaultAircraftState).velocityEnuMetersPerSec.x = 0 := by
  rw [substepW,
    show vsub defaultAircraftState.velocityEnuMetersPerSec ⟨0, 0, 0⟩ =
      (⟨0, 0, 0⟩ : Vector3) from by
        rw [show defaultAircraftState.velocityEnuMetersPerSec =
          (⟨0, 0, 0⟩ : Vector3) from rfl]
        unfold vsub
        ext <;> norm_num,
    substepCore_velocity, netForceEnuOf_rest_calm]
  have hvel : add defaultAircraftState.velocityEnuMetersPerSec
      (scale (scale (⟨0, 0, -(1110 * 9.80665)⟩ : Vector3)
        (1 / defaultAircraftParameters.massKg)) 0.02) =
      ⟨0, 0, -(9.80665 * 0.02)⟩ := by
    rw [show defaultAircraftState.velocityEnuMetersPerSec =
      (⟨0, 0, 0⟩ : Vector3) from rfl,
      show defaultAircraftParameters.massKg = (1110 : ℝ) from rfl]
    unfold add scale
    ext <;> dsimp only <;> norm_num
  rw [hvel, capSpeed_of_le (by
    rw [magnitude_le_iff (by norm_num : (0 : ℝ) ≤ 250)]
    unfold normSq
    dsimp only
    norm_num)]

/-- Modelled from the spec: a wind-capable model of the default aircraft at
rest with calm wind. -/
def windModelRest : FlightDynamicsModelW :=
  ⟨defaultAircraftParameters, DefaultFdmConfig, defaultAircraftState,
    ⟨0, 0, 0⟩⟩

/-- Claim C6 (spec-modelled: the wind-capable `flightDynamics.ts` is not in
the repository snapshot, only its callers): the model exposes
`setWindEnuMetersPerSec`, the vector it sets is stored without touching the
rest of the model, every subsequent substep computes its body-frame airflow
from the wind vector subtracted from the world velocity before the
body-frame transform, and a nonzero wind changes the outcome of a subsequent
update with identical controls and dt (concretely: a 50 m/s headwind on the
resting default aircraft produces a drag force that makes the along-wind
velocity component nonzero after one `updateW(0.02, ·)` call, while with calm
wind it stays zero). -/
theorem C6_wind_setter_feeds_airflow :
    (∀ (w : Vector3) (m : FlightDynamicsModelW),
      (setWindEnuMetersPerSec w m).windEnuMetersPerSec = w ∧
      (setWindEnuMetersPerSec w m).state = m.state ∧
      (setWindEnuMetersPerSec w m).params = m.params ∧
      (setWindEnuMetersPerSec w m).config = m.config) ∧
    (∀ (p : AircraftParameters) (c : FdmConfig) (i : ControlInputs) (d : ℝ)
      (w : Vector3) (s : AircraftState),
      substepW p c i d w s =
        substepCore p c i d (vsub s.velocityEnuMetersPerSec w) s) ∧
    (updateW (JsNum.num 0.02) ⟨0, 0, 0, 0⟩
        (setWindEnuMetersPerSec ⟨-50, 0, 0⟩
          windModelRest)).state.velocityEnuMetersPerSec ≠
      (updateW (JsNum.num 0.02) ⟨0, 0, 0, 0⟩
        windModelRest).state.velocityEnuMetersPerSec := by
  refine ⟨fun w m => ⟨rfl, rfl, rfl, rfl⟩, fun p c i d w s => rfl, ?_⟩
  intro h
  have hx := congrArg Vector3.x h
  rw [updateW_002_eq_substepW, updateW_002_eq_substepW] at hx
  dsimp only [setWindEnuMetersPerSec, windModelRest] at hx
  rw [substepW_rest_wind_vel, substepW_rest_calm_vel] at hx
  norm_num at hx

end

end FlightSim
